import Mathlib

/-! RoboEyesTFT: the animation engine of `TFT_RoboEyes`.

A shallow embedding of `src/RoboEyesTFT_eSPI.h`.

* `int` members are `Int` (signed overflow is undefined behaviour in C++ and is
  left out of the model); `/` on `int` is C++ division, truncating toward zero
  (`cdiv`).
* `uint8_t`, `uint16_t` and `unsigned long` members are `Nat`; every
  arithmetic result stored into one of them is reduced explicitly (`u8`,
  `u32`; `unsigned long` is 32 bits wide on the ESP32 this code targets).
* `millis()` and `random()` are external ports.  A `Port` carries what one
  `drawEyes` pass reads from them: the clock value (the clock is taken not to
  advance within a pass, so every `millis()` of the pass reads the same value)
  and, for each of the four `random(bound)` call sites, the function from the
  bound to the value returned there.
* The sprite is an output device: every call on it is recorded as a `DrawOp`.
-/

namespace RoboEyes

/-! ## Machine arithmetic -/

/-- C++ `int` division: the quotient is truncated toward zero. -/
def cdiv (a b : Int) : Int := Int.tdiv a b

/-- C++ `int` division by a divisor that may be zero: division by zero is
undefined behaviour (a CPU exception on the ESP32) and has no result. -/
def cdivChecked (a b : Int) : Option Int :=
  if b = 0 then none else some (cdiv a b)

/-- Conversion of an integer value to `uint8_t`. -/
def u8 (x : Int) : Nat := (x % 256).toNat

/-- Conversion of an integer value to the 32-bit `unsigned long`. -/
def u32 (x : Int) : Nat := (x % 4294967296).toNat

/-! ## Constants of the header -/

def DEFAULT : Nat := 0
def TIRED : Nat := 1
def ANGRY : Nat := 2
def HAPPY : Nat := 3

def N : Nat := 1
def NE : Nat := 2
def E : Nat := 3
def SE : Nat := 4
def S : Nat := 5
def SW : Nat := 6
def W : Nat := 7
def NW : Nat := 8

def TFT_BLACK : Nat := 0
def TFT_WHITE : Nat := 65535
def DEFAULT_BGCOLOR : Nat := TFT_BLACK
def DEFAULT_MAINCOLOR : Nat := TFT_WHITE

/-! ## Ports -/

/-- One call on the sprite (or, for `setRotation`, on the display). -/
inductive DrawOp where
  | createSprite (w h : Int)
  | deleteSprite
  | fillSprite (color : Nat)
  | fillRoundRect (x y w h : Int) (r : Nat) (color : Nat)
  | fillTriangle (x1 y1 x2 y2 x3 y3 : Int) (color : Nat)
  | pushSprite (x y : Int)
  deriving DecidableEq, Repr

/-- What one `drawEyes` pass reads from the clock and the random source. -/
structure Port where
  /-- value of `millis()` during the pass -/
  millis : Nat
  /-- `random(blinkIntervalVariation)` when a blink fires -/
  randomBlink : Int → Int
  /-- `random(getScreenConstraint_X())` when idle fires -/
  randomIdleX : Int → Int
  /-- `random(getScreenConstraint_Y())` when idle fires -/
  randomIdleY : Int → Int
  /-- `random(idleIntervalVariation)` when idle fires -/
  randomIdle : Int → Int

/-- Contract of the random port: `random(bound)` lies in `[0, bound)`, and
`random(0)` is `0`. -/
def RandomOk (r : Int → Int) : Prop :=
  r 0 = 0 ∧ ∀ b : Int, 0 < b → 0 ≤ r b ∧ r b < b

/-! ## Engine state: the data members of `TFT_RoboEyes` -/

structure State where
  screenWidth : Int
  screenHeight : Int
  bgColor : Nat
  mainColor : Nat
  frameInterval : Int
  fpsTimer : Nat
  tired : Bool
  angry : Bool
  happy : Bool
  curious : Bool
  cyclops : Bool
  eyeL_open : Bool
  eyeR_open : Bool
  eyeLwidthDefault : Int
  eyeLheightDefault : Int
  eyeLwidthCurrent : Int
  eyeLheightCurrent : Int
  eyeLwidthNext : Int
  eyeLheightNext : Int
  eyeLheightOffset : Int
  eyeLborderRadiusDefault : Nat
  eyeLborderRadiusCurrent : Nat
  eyeLborderRadiusNext : Nat
  eyeRwidthDefault : Int
  eyeRheightDefault : Int
  eyeRwidthCurrent : Int
  eyeRheightCurrent : Int
  eyeRwidthNext : Int
  eyeRheightNext : Int
  eyeRheightOffset : Int
  eyeRborderRadiusDefault : Nat
  eyeRborderRadiusCurrent : Nat
  eyeRborderRadiusNext : Nat
  eyeLxDefault : Int
  eyeLyDefault : Int
  eyeLx : Int
  eyeLy : Int
  eyeLxNext : Int
  eyeLyNext : Int
  eyeRxDefault : Int
  eyeRyDefault : Int
  eyeRx : Int
  eyeRy : Int
  eyeRxNext : Int
  eyeRyNext : Int
  eyelidsHeightMax : Nat
  eyelidsTiredHeight : Nat
  eyelidsTiredHeightNext : Nat
  eyelidsAngryHeight : Nat
  eyelidsAngryHeightNext : Nat
  eyelidsHappyBottomOffsetMax : Nat
  eyelidsHappyBottomOffset : Nat
  eyelidsHappyBottomOffsetNext : Nat
  spaceBetweenDefault : Int
  spaceBetweenCurrent : Int
  spaceBetweenNext : Int
  hFlicker : Bool
  hFlickerAlternate : Bool
  hFlickerAmplitude : Nat
  vFlicker : Bool
  vFlickerAlternate : Bool
  vFlickerAmplitude : Nat
  autoblinker : Bool
  blinkInterval : Int
  blinkIntervalVariation : Int
  blinktimer : Nat
  idle : Bool
  idleInterval : Int
  idleIntervalVariation : Int
  idleAnimationTimer : Nat
  confused : Bool
  confusedAnimationTimer : Nat
  confusedAnimationDuration : Int
  confusedToggle : Bool
  laugh : Bool
  laughAnimationTimer : Nat
  laughAnimationDuration : Int
  laughToggle : Bool
  blinkingActive : Bool
  blinkCloseDurationTimer : Nat
  blinkCloseDuration : Int

/-! ## Constructor -/

/-- The constructor `TFT_RoboEyes(display, portrait, rotations)`.  The two
burst timers are not initialised by the source; they are `0` here. -/
def init (portrait : Bool) : State :=
  let screenWidth : Int := if portrait then 135 else 240
  let screenHeight : Int := if portrait then 240 else 135
  let eyeLxDefault : Int := cdiv (screenWidth - (36 + 10 + 36)) 2
  let eyeLyDefault : Int := cdiv (screenHeight - 36) 2
  { screenWidth := screenWidth
    screenHeight := screenHeight
    bgColor := DEFAULT_BGCOLOR
    mainColor := DEFAULT_MAINCOLOR
    frameInterval := cdiv 1000 50
    fpsTimer := 0
    tired := false, angry := false, happy := false, curious := false, cyclops := false
    eyeL_open := false, eyeR_open := false
    eyeLwidthDefault := 36
    eyeLheightDefault := 36
    eyeLwidthCurrent := 36
    eyeLheightCurrent := 1
    eyeLwidthNext := 36
    eyeLheightNext := 36
    eyeLheightOffset := 0
    eyeLborderRadiusDefault := 8
    eyeLborderRadiusCurrent := 8
    eyeLborderRadiusNext := 8
    eyeRwidthDefault := 36
    eyeRheightDefault := 36
    eyeRwidthCurrent := 36
    eyeRheightCurrent := 1
    eyeRwidthNext := 36
    eyeRheightNext := 36
    eyeRheightOffset := 0
    eyeRborderRadiusDefault := 8
    eyeRborderRadiusCurrent := 8
    eyeRborderRadiusNext := 8
    spaceBetweenDefault := 10
    spaceBetweenCurrent := 10
    spaceBetweenNext := 10
    eyeLxDefault := eyeLxDefault
    eyeLyDefault := eyeLyDefault
    eyeLx := eyeLxDefault
    eyeLy := eyeLyDefault
    eyeLxNext := eyeLxDefault
    eyeLyNext := eyeLyDefault
    eyeRxDefault := eyeLxDefault + 36 + 10
    eyeRyDefault := eyeLyDefault
    eyeRx := eyeLxDefault + 36 + 10
    eyeRy := eyeLyDefault
    eyeRxNext := eyeLxDefault + 36 + 10
    eyeRyNext := eyeLyDefault
    eyelidsHeightMax := u8 (cdiv 36 2)
    eyelidsTiredHeight := 0
    eyelidsTiredHeightNext := 0
    eyelidsAngryHeight := 0
    eyelidsAngryHeightNext := 0
    eyelidsHappyBottomOffsetMax := u8 (cdiv 36 2 + 3)
    eyelidsHappyBottomOffset := 0
    eyelidsHappyBottomOffsetNext := 0
    hFlicker := false, hFlickerAlternate := false, hFlickerAmplitude := 2
    vFlicker := false, vFlickerAlternate := false, vFlickerAmplitude := 10
    autoblinker := false, blinkInterval := 1, blinkIntervalVariation := 4, blinktimer := 0
    idle := false, idleInterval := 1, idleIntervalVariation := 3, idleAnimationTimer := 0
    confused := false, confusedAnimationTimer := 0, confusedAnimationDuration := 500
    confusedToggle := true
    laugh := false, laughAnimationTimer := 0, laughAnimationDuration := 500
    laughToggle := true
    blinkingActive := false
    blinkCloseDurationTimer := 0
    blinkCloseDuration := 150 }

/-! ## Configuration -/

/-- `setFramerate(byte fps)`: `frameInterval = 1000 / fps`.  The divisor is
not guarded. -/
def setFramerate (fps : Nat) (s : State) : Option State :=
  match cdivChecked 1000 fps with
  | none => none
  | some q => some { s with frameInterval := q }

/-- `begin(byte frameRate)`: creates and clears the sprite, closes both eyes
and sets the frame rate. -/
def begin (frameRate : Nat) (s : State) : Option (State × List DrawOp) :=
  let ops := [DrawOp.createSprite s.screenWidth s.screenHeight, DrawOp.fillSprite s.bgColor]
  let s1 := { s with eyeLheightCurrent := 1, eyeRheightCurrent := 1 }
  match setFramerate frameRate s1 with
  | none => none
  | some s2 => some (s2, ops)

def getScreenConstraint_X (s : State) : Int :=
  s.screenWidth - s.eyeLwidthCurrent - s.spaceBetweenCurrent - s.eyeRwidthCurrent

def getScreenConstraint_Y (s : State) : Int :=
  s.screenHeight - s.eyeLheightDefault

/-- `setPosition(uint8_t position)`. -/
def setPosition (position : Nat) (s : State) : State :=
  if position = N then
    { s with eyeLxNext := cdiv (getScreenConstraint_X s) 2, eyeLyNext := 0 }
  else if position = NE then
    { s with eyeLxNext := getScreenConstraint_X s, eyeLyNext := 0 }
  else if position = E then
    { s with eyeLxNext := getScreenConstraint_X s, eyeLyNext := cdiv (getScreenConstraint_Y s) 2 }
  else if position = SE then
    { s with eyeLxNext := getScreenConstraint_X s, eyeLyNext := getScreenConstraint_Y s }
  else if position = S then
    { s with eyeLxNext := cdiv (getScreenConstraint_X s) 2, eyeLyNext := getScreenConstraint_Y s }
  else if position = SW then
    { s with eyeLxNext := 0, eyeLyNext := getScreenConstraint_Y s }
  else if position = W then
    { s with eyeLxNext := 0, eyeLyNext := cdiv (getScreenConstraint_Y s) 2 }
  else if position = NW then
    { s with eyeLxNext := 0, eyeLyNext := 0 }
  else
    { s with eyeLxNext := s.eyeLxDefault, eyeLyNext := s.eyeLyDefault }

/-- `setScreenSize(int w, int h)`.  The sprite pointer is not part of the
modelled state; `hasSprite` says whether it is set, in which case the sprite
is deleted and created again with the new dimensions. -/
def setScreenSize (hasSprite : Bool) (w h : Int) (s : State) : State × List DrawOp :=
  let s := { s with screenWidth := w }
  let s := { s with screenHeight := h }
  let s := { s with
    eyeLxDefault :=
      cdiv (s.screenWidth - (s.eyeLwidthDefault + s.spaceBetweenDefault + s.eyeRwidthDefault)) 2 }
  let s := { s with eyeLyDefault := cdiv (s.screenHeight - s.eyeLheightDefault) 2 }
  let s := { s with eyeRxDefault := s.eyeLxDefault + s.eyeLwidthDefault + s.spaceBetweenDefault }
  let s := { s with eyeRyDefault := s.eyeLyDefault }
  let s := { s with eyeLxNext := s.eyeLxDefault }
  let s := { s with eyeLyNext := s.eyeLyDefault }
  let s := { s with eyeRxNext := s.eyeRxDefault }
  let s := { s with eyeRyNext := s.eyeRyDefault }
  (s, if hasSprite then
        [DrawOp.deleteSprite, DrawOp.createSprite s.screenWidth s.screenHeight]
      else [])

/-- `setWidth(byte leftEye, byte rightEye)`. -/
def setWidth (leftEye rightEye : Nat) (s : State) : State :=
  { s with
    eyeLwidthNext := leftEye
    eyeRwidthNext := rightEye
    eyeLwidthDefault := leftEye
    eyeRwidthDefault := rightEye }

/-- `setHeight(byte leftEye, byte rightEye)`. -/
def setHeight (leftEye rightEye : Nat) (s : State) : State :=
  { s with
    eyeLheightNext := leftEye
    eyeRheightNext := rightEye
    eyeLheightDefault := leftEye
    eyeRheightDefault := rightEye }

/-- `setBorderradius(byte leftEye, byte rightEye)`. -/
def setBorderradius (leftEye rightEye : Nat) (s : State) : State :=
  { s with
    eyeLborderRadiusNext := leftEye
    eyeRborderRadiusNext := rightEye
    eyeLborderRadiusDefault := leftEye
    eyeRborderRadiusDefault := rightEye }

/-- `setSpacebetween(int space)`. -/
def setSpacebetween (space : Int) (s : State) : State :=
  { s with spaceBetweenNext := space, spaceBetweenDefault := space }

/-- `setMood(uint8_t mood)`. -/
def setMood (mood : Nat) (s : State) : State :=
  if mood = TIRED then { s with tired := true, angry := false, happy := false }
  else if mood = ANGRY then { s with tired := false, angry := true, happy := false }
  else if mood = HAPPY then { s with tired := false, angry := false, happy := true }
  else { s with tired := false, angry := false, happy := false }

/-- `setAutoblinker(bool active, int interval, int variation)`, called when
`millis()` reads `now` and `random` is what `random(bound)` returns. -/
def setAutoblinker (now : Nat) (random : Int → Int) (active : Bool) (interval variation : Int)
    (s : State) : State :=
  let s := { s with autoblinker := active }
  let s := { s with blinkInterval := interval }
  let s := { s with blinkIntervalVariation := variation }
  let s := { s with
    blinktimer := u32 (now + s.blinkInterval * 1000 + random s.blinkIntervalVariation * 1000) }
  { s with blinkingActive := false }

/-- `setIdleMode(bool active, int interval, int variation)`. -/
def setIdleMode (active : Bool) (interval variation : Int) (s : State) : State :=
  { s with idle := active, idleInterval := interval, idleIntervalVariation := variation }

/-- `setCuriosity(bool curiousBit)`. -/
def setCuriosity (curiousBit : Bool) (s : State) : State := { s with curious := curiousBit }

/-- `setCyclops(bool cyclopsBit)`. -/
def setCyclops (cyclopsBit : Bool) (s : State) : State := { s with cyclops := cyclopsBit }

/-- `setColors(uint16_t main, uint16_t background)`. -/
def setColors (main background : Nat) (s : State) : State :=
  { s with mainColor := main, bgColor := background }

/-- `setHFlicker(bool flickerBit)`, the overload without amplitude. -/
def setHFlickerBit (flickerBit : Bool) (s : State) : State := { s with hFlicker := flickerBit }

/-- `setVFlicker(bool flickerBit)`, the overload without amplitude. -/
def setVFlickerBit (flickerBit : Bool) (s : State) : State := { s with vFlicker := flickerBit }

/-- `setHFlicker(bool, uint8_t amplitude)`. -/
def setHFlicker (flickerBit : Bool) (amplitude : Nat) (s : State) : State :=
  { s with hFlicker := flickerBit, hFlickerAmplitude := amplitude }

/-- `setVFlicker(bool, uint8_t amplitude)`. -/
def setVFlicker (flickerBit : Bool) (amplitude : Nat) (s : State) : State :=
  { s with vFlicker := flickerBit, vFlickerAmplitude := amplitude }

/-! ## Open and close -/

/-- `close()`. -/
def close (s : State) : State :=
  { s with
    eyeLheightNext := 1
    eyeRheightNext := 1
    eyeL_open := false
    eyeR_open := false
    eyeLborderRadiusNext := 0
    eyeRborderRadiusNext := 0 }

/-- `open()`; `open` is a reserved word, so the argument-less overload is
`openEyes` and the two-flag overload is `openLR`. -/
def openEyes (s : State) : State :=
  { s with
    eyeL_open := true
    eyeR_open := true
    eyeLheightNext := s.eyeLheightDefault
    eyeRheightNext := s.eyeRheightDefault
    eyeLborderRadiusNext := s.eyeLborderRadiusDefault
    eyeRborderRadiusNext := s.eyeRborderRadiusDefault }

/-- `close(bool left, bool right)`. -/
def closeLR (left right : Bool) (s : State) : State :=
  let s1 :=
    if left then
      { s with eyeLheightNext := 1, eyeL_open := false, eyeLborderRadiusNext := 0 }
    else s
  if right then
    { s1 with eyeRheightNext := 1, eyeR_open := false, eyeRborderRadiusNext := 0 }
  else s1

/-- `open(bool left, bool right)`. -/
def openLR (left right : Bool) (s : State) : State :=
  let s1 :=
    if left then
      { s with
        eyeL_open := true
        eyeLheightNext := s.eyeLheightDefault
        eyeLborderRadiusNext := s.eyeLborderRadiusDefault }
    else s
  if right then
    { s1 with
      eyeR_open := true
      eyeRheightNext := s1.eyeRheightDefault
      eyeRborderRadiusNext := s1.eyeRborderRadiusDefault }
  else s1

/-- `blink(bool left, bool right)`: `close()` followed by `open()`; the flags
are not used by the body. -/
def blink (left right : Bool) (s : State) : State :=
  let _ := left
  let _ := right
  openEyes (close s)

/-- `anim_confused()`. -/
def anim_confused (s : State) : State := { s with confused := true }

/-- `anim_laugh()`. -/
def anim_laugh (s : State) : State := { s with laugh := true }

/-! ## The compositor `drawEyes`, block by block -/

/-- PRE-CALCULATIONS: the curiosity height offsets. -/
def curiosityOffsets (s : State) : State :=
  if s.curious then
    let s1 :=
      if s.eyeLxNext ≤ 10 then { s with eyeLheightOffset := 8 }
      else if s.eyeLxNext ≥ getScreenConstraint_X s - 10 ∧ s.cyclops then
        { s with eyeLheightOffset := 8 }
      else { s with eyeLheightOffset := 0 }
    if s1.eyeRxNext ≥ s1.screenWidth - s1.eyeRwidthCurrent - 10 then
      { s1 with eyeRheightOffset := 8 }
    else { s1 with eyeRheightOffset := 0 }
  else
    { s with eyeLheightOffset := 0, eyeRheightOffset := 0 }

/-- Smooth eye height transition, vertical recentring, and the rule that
re-targets an open eye whose height has come down to `1 + offset`. -/
def smoothHeights (s : State) : State :=
  let s := { s with
    eyeLheightCurrent := cdiv (s.eyeLheightCurrent + s.eyeLheightNext + s.eyeLheightOffset) 2 }
  let s := { s with eyeLy := s.eyeLy + cdiv (s.eyeLheightDefault - s.eyeLheightCurrent) 2 }
  let s := { s with eyeLy := s.eyeLy - cdiv s.eyeLheightOffset 2 }
  let s := { s with
    eyeRheightCurrent := cdiv (s.eyeRheightCurrent + s.eyeRheightNext + s.eyeRheightOffset) 2 }
  let s := { s with eyeRy := s.eyeRy + cdiv (s.eyeRheightDefault - s.eyeRheightCurrent) 2 }
  let s := { s with eyeRy := s.eyeRy - cdiv s.eyeRheightOffset 2 }
  let s :=
    if s.eyeL_open then
      if s.eyeLheightCurrent ≤ 1 + s.eyeLheightOffset then
        { s with eyeLheightNext := s.eyeLheightDefault }
      else s
    else s
  if s.eyeR_open then
    if s.eyeRheightCurrent ≤ 1 + s.eyeRheightOffset then
      { s with eyeRheightNext := s.eyeRheightDefault }
    else s
  else s

/-- Smooth width, spacing, coordinate and border radius transitions; the
right eye's target is derived from the left eye's. -/
def smoothGeometry (s : State) : State :=
  let s := { s with eyeLwidthCurrent := cdiv (s.eyeLwidthCurrent + s.eyeLwidthNext) 2 }
  let s := { s with eyeRwidthCurrent := cdiv (s.eyeRwidthCurrent + s.eyeRwidthNext) 2 }
  let s := { s with spaceBetweenCurrent := cdiv (s.spaceBetweenCurrent + s.spaceBetweenNext) 2 }
  let s := { s with eyeLx := cdiv (s.eyeLx + s.eyeLxNext) 2 }
  let s := { s with eyeLy := cdiv (s.eyeLy + s.eyeLyNext) 2 }
  let s := { s with eyeRxNext := s.eyeLxNext + s.eyeLwidthCurrent + s.spaceBetweenCurrent }
  let s := { s with eyeRyNext := s.eyeLyNext }
  let s := { s with eyeRx := cdiv (s.eyeRx + s.eyeRxNext) 2 }
  let s := { s with eyeRy := cdiv (s.eyeRy + s.eyeRyNext) 2 }
  let s := { s with
    eyeLborderRadiusCurrent := (s.eyeLborderRadiusCurrent + s.eyeLborderRadiusNext) / 2 % 256 }
  { s with
    eyeRborderRadiusCurrent := (s.eyeRborderRadiusCurrent + s.eyeRborderRadiusNext) / 2 % 256 }

/-- MACRO ANIMATIONS, autoblinker: start of a blink and end of the hold. -/
def autoblinkStep (p : Port) (s : State) : State :=
  let s :=
    if s.autoblinker ∧ ¬ s.blinkingActive then
      if p.millis ≥ s.blinktimer then
        let s := close s
        let s := { s with blinkingActive := true }
        let s := { s with blinkCloseDurationTimer := u32 (p.millis + s.blinkCloseDuration) }
        { s with
          blinktimer :=
            u32 (p.millis + s.blinkInterval * 1000
              + p.randomBlink s.blinkIntervalVariation * 1000) }
      else s
    else s
  if s.blinkingActive ∧ p.millis ≥ s.blinkCloseDurationTimer then
    let s := openEyes s
    { s with blinkingActive := false }
  else s

/-- MACRO ANIMATIONS, laugh burst. -/
def laughStep (p : Port) (s : State) : State :=
  if s.laugh then
    if s.laughToggle then
      let s := setVFlicker true 5 s
      let s := { s with laughAnimationTimer := p.millis }
      { s with laughToggle := false }
    else if p.millis ≥ u32 (s.laughAnimationTimer + s.laughAnimationDuration) then
      let s := setVFlicker false 0 s
      let s := { s with laughToggle := true }
      { s with laugh := false }
    else s
  else s

/-- MACRO ANIMATIONS, confusion burst. -/
def confusedStep (p : Port) (s : State) : State :=
  if s.confused then
    if s.confusedToggle then
      let s := setHFlicker true 20 s
      let s := { s with confusedAnimationTimer := p.millis }
      { s with confusedToggle := false }
    else if p.millis ≥ u32 (s.confusedAnimationTimer + s.confusedAnimationDuration) then
      let s := setHFlicker false 0 s
      let s := { s with confusedToggle := true }
      { s with confused := false }
    else s
  else s

/-- Whether the idle generator fires in a pass at the port's clock value. -/
def idleFires (p : Port) (s : State) : Prop :=
  s.idle = true ∧ p.millis ≥ s.idleAnimationTimer

instance (p : Port) (s : State) : Decidable (idleFires p s) := by
  unfold idleFires; infer_instance

/-- MACRO ANIMATIONS, idle repositioning. -/
def idleStep (p : Port) (s : State) : State :=
  if s.idle then
    if p.millis ≥ s.idleAnimationTimer then
      let s := { s with eyeLxNext := p.randomIdleX (getScreenConstraint_X s) }
      let s := { s with eyeLyNext := p.randomIdleY (getScreenConstraint_Y s) }
      { s with
        idleAnimationTimer :=
          u32 (p.millis + s.idleInterval * 1000 + p.randomIdle s.idleIntervalVariation * 1000) }
    else s
  else s

/-- Horizontal flicker overlay. -/
def hFlickerStep (s : State) : State :=
  if s.hFlicker then
    let s :=
      if s.hFlickerAlternate then
        { s with eyeLx := s.eyeLx + s.hFlickerAmplitude, eyeRx := s.eyeRx + s.hFlickerAmplitude }
      else
        { s with eyeLx := s.eyeLx - s.hFlickerAmplitude, eyeRx := s.eyeRx - s.hFlickerAmplitude }
    { s with hFlickerAlternate := !s.hFlickerAlternate }
  else s

/-- Vertical flicker overlay. -/
def vFlickerStep (s : State) : State :=
  if s.vFlicker then
    let s :=
      if s.vFlickerAlternate then
        { s with eyeLy := s.eyeLy + s.vFlickerAmplitude, eyeRy := s.eyeRy + s.vFlickerAmplitude }
      else
        { s with eyeLy := s.eyeLy - s.vFlickerAmplitude, eyeRy := s.eyeRy - s.vFlickerAmplitude }
    { s with vFlickerAlternate := !s.vFlickerAlternate }
  else s

/-- Cyclops mode: the right eye and the spacing are zeroed. -/
def cyclopsStep (s : State) : State :=
  if s.cyclops then
    { s with eyeRwidthCurrent := 0, eyeRheightCurrent := 0, spaceBetweenCurrent := 0 }
  else s

/-- ACTUAL DRAWINGS: the eye shapes, drawn in the main colour. -/
def eyeShapes (s : State) : List DrawOp :=
  [DrawOp.fillRoundRect s.eyeLx s.eyeLy s.eyeLwidthCurrent s.eyeLheightCurrent
      s.eyeLborderRadiusCurrent s.mainColor]
  ++ (if ¬ s.cyclops then
        [DrawOp.fillRoundRect s.eyeRx s.eyeRy s.eyeRwidthCurrent s.eyeRheightCurrent
          s.eyeRborderRadiusCurrent s.mainColor]
      else [])

/-- Prepare mood transitions: the eyelid targets for tired, angry, happy. -/
def moodTargets (s : State) : State :=
  let s :=
    if s.tired then
      { s with eyelidsTiredHeightNext := u8 (cdiv s.eyeLheightCurrent 2)
               eyelidsAngryHeightNext := 0 }
    else { s with eyelidsTiredHeightNext := 0 }
  let s :=
    if s.angry then
      { s with eyelidsAngryHeightNext := u8 (cdiv s.eyeLheightCurrent 2)
               eyelidsTiredHeightNext := 0 }
    else { s with eyelidsAngryHeightNext := 0 }
  if s.happy then
    { s with eyelidsHappyBottomOffsetNext := u8 (cdiv s.eyeLheightCurrent 2) }
  else { s with eyelidsHappyBottomOffsetNext := 0 }

/-- Tired eyelids: the masking triangles. -/
def tiredLids (s : State) : List DrawOp :=
  if ¬ s.cyclops then
    [DrawOp.fillTriangle s.eyeLx (s.eyeLy - 1) (s.eyeLx + s.eyeLwidthCurrent) (s.eyeLy - 1)
        s.eyeLx (s.eyeLy + s.eyelidsTiredHeight - 1) s.bgColor,
     DrawOp.fillTriangle s.eyeRx (s.eyeRy - 1) (s.eyeRx + s.eyeRwidthCurrent) (s.eyeRy - 1)
        (s.eyeRx + s.eyeRwidthCurrent) (s.eyeRy + s.eyelidsTiredHeight - 1) s.bgColor]
  else
    [DrawOp.fillTriangle s.eyeLx (s.eyeLy - 1) (s.eyeLx + cdiv s.eyeLwidthCurrent 2) (s.eyeLy - 1)
        s.eyeLx (s.eyeLy + s.eyelidsTiredHeight - 1) s.bgColor,
     DrawOp.fillTriangle (s.eyeLx + cdiv s.eyeLwidthCurrent 2) (s.eyeLy - 1)
        (s.eyeLx + s.eyeLwidthCurrent) (s.eyeLy - 1)
        (s.eyeLx + s.eyeLwidthCurrent) (s.eyeLy + s.eyelidsTiredHeight - 1) s.bgColor]

/-- Angry eyelids: the masking triangles. -/
def angryLids (s : State) : List DrawOp :=
  if ¬ s.cyclops then
    [DrawOp.fillTriangle s.eyeLx (s.eyeLy - 1) (s.eyeLx + s.eyeLwidthCurrent) (s.eyeLy - 1)
        (s.eyeLx + s.eyeLwidthCurrent) (s.eyeLy + s.eyelidsAngryHeight - 1) s.bgColor,
     DrawOp.fillTriangle s.eyeRx (s.eyeRy - 1) (s.eyeRx + s.eyeRwidthCurrent) (s.eyeRy - 1)
        s.eyeRx (s.eyeRy + s.eyelidsAngryHeight - 1) s.bgColor]
  else
    [DrawOp.fillTriangle s.eyeLx (s.eyeLy - 1) (s.eyeLx + cdiv s.eyeLwidthCurrent 2) (s.eyeLy - 1)
        (s.eyeLx + cdiv s.eyeLwidthCurrent 2) (s.eyeLy + s.eyelidsAngryHeight - 1) s.bgColor,
     DrawOp.fillTriangle (s.eyeLx + cdiv s.eyeLwidthCurrent 2) (s.eyeLy - 1)
        (s.eyeLx + s.eyeLwidthCurrent) (s.eyeLy - 1)
        (s.eyeLx + s.eyeLwidthCurrent) (s.eyeLy + s.eyelidsAngryHeight - 1) s.bgColor]

/-- Happy (bottom) eyelids: the masking rounded rectangles. -/
def happyLids (s : State) : List DrawOp :=
  [DrawOp.fillRoundRect (s.eyeLx - 1)
      ((s.eyeLy + s.eyeLheightCurrent) - s.eyelidsHappyBottomOffset + 1)
      (s.eyeLwidthCurrent + 2) s.eyeLheightDefault s.eyeLborderRadiusCurrent s.bgColor]
  ++ (if ¬ s.cyclops then
        [DrawOp.fillRoundRect (s.eyeRx - 1)
          ((s.eyeRy + s.eyeRheightCurrent) - s.eyelidsHappyBottomOffset + 1)
          (s.eyeRwidthCurrent + 2) s.eyeRheightDefault s.eyeRborderRadiusCurrent s.bgColor]
      else [])

/-- The state of the engine just before the idle generator runs in a pass. -/
def beforeIdle (p : Port) (s : State) : State :=
  let s := curiosityOffsets s
  let s := smoothHeights s
  let s := smoothGeometry s
  let s := autoblinkStep p s
  let s := laughStep p s
  confusedStep p s

/-- `drawEyes()`: one pass of the compositor.  Returns the new state and the
calls made on the sprite, in order. -/
def drawEyes (p : Port) (s : State) : State × List DrawOp :=
  let s := beforeIdle p s
  let s := idleStep p s
  let s := hFlickerStep s
  let s := vFlickerStep s
  let s := cyclopsStep s
  let ops1 := [DrawOp.fillSprite s.bgColor] ++ eyeShapes s
  let s := moodTargets s
  let s := { s with
    eyelidsTiredHeight := (s.eyelidsTiredHeight + s.eyelidsTiredHeightNext) / 2 % 256 }
  let ops2 := tiredLids s
  let s := { s with
    eyelidsAngryHeight := (s.eyelidsAngryHeight + s.eyelidsAngryHeightNext) / 2 % 256 }
  let ops3 := angryLids s
  let s := { s with
    eyelidsHappyBottomOffset :=
      (s.eyelidsHappyBottomOffset + s.eyelidsHappyBottomOffsetNext) / 2 % 256 }
  let ops4 := happyLids s
  (s, ops1 ++ ops2 ++ ops3 ++ ops4)

/-- `update()`: the frame-rate gate around `drawEyes` and the push of the
sprite.  `now` is the clock value read by the gate, `p` what the pass reads,
`after` the clock value stored into `fpsTimer`. -/
def update (now : Nat) (p : Port) (after : Nat) (s : State) : State × List DrawOp :=
  if u32 ((now : Int) - s.fpsTimer) ≥ u32 s.frameInterval then
    let r := drawEyes p s
    ({ r.1 with fpsTimer := after }, r.2 ++ [DrawOp.pushSprite 0 0])
  else (s, [])

/-- The state after a run of `drawEyes` passes, one per port of the list. -/
def frames : List Port → State → State
  | [], s => s
  | p :: ps, s => frames ps (drawEyes p s).1

/-! ## The public operations and the states they reach -/

/-- A call of a public method, with what it reads from the ports; `drawEyes`
is private and is reached through `update`, but a bare pass is listed too. -/
inductive Op where
  | begin (frameRate : Nat)
  | update (now : Nat) (p : Port) (after : Nat)
  | drawEyes (p : Port)
  | setFramerate (fps : Nat)
  | setScreenSize (hasSprite : Bool) (w h : Int)
  | setWidth (leftEye rightEye : Nat)
  | setHeight (leftEye rightEye : Nat)
  | setBorderradius (leftEye rightEye : Nat)
  | setSpacebetween (space : Int)
  | setMood (mood : Nat)
  | setPosition (position : Nat)
  | setAutoblinker (now : Nat) (random : Int → Int) (active : Bool) (interval variation : Int)
  | setIdleMode (active : Bool) (interval variation : Int)
  | setCuriosity (curiousBit : Bool)
  | setCyclops (cyclopsBit : Bool)
  | setHFlicker (flickerBit : Bool) (amplitude : Nat)
  | setHFlickerBit (flickerBit : Bool)
  | setVFlicker (flickerBit : Bool) (amplitude : Nat)
  | setVFlickerBit (flickerBit : Bool)
  | setColors (main background : Nat)
  | close
  | openEyes
  | blink (left right : Bool)
  | closeLR (left right : Bool)
  | openLR (left right : Bool)
  | anim_confused
  | anim_laugh

/-- The state after a call; `none` when the call has no result (`begin` and
`setFramerate` with frame rate 0). -/
def Op.run : Op → State → Option State
  | Op.begin frameRate, s => (RoboEyes.begin frameRate s).map Prod.fst
  | Op.update now p after, s => some (RoboEyes.update now p after s).1
  | Op.drawEyes p, s => some (RoboEyes.drawEyes p s).1
  | Op.setFramerate fps, s => RoboEyes.setFramerate fps s
  | Op.setScreenSize hasSprite w h, s => some (RoboEyes.setScreenSize hasSprite w h s).1
  | Op.setWidth l r, s => some (RoboEyes.setWidth l r s)
  | Op.setHeight l r, s => some (RoboEyes.setHeight l r s)
  | Op.setBorderradius l r, s => some (RoboEyes.setBorderradius l r s)
  | Op.setSpacebetween space, s => some (RoboEyes.setSpacebetween space s)
  | Op.setMood mood, s => some (RoboEyes.setMood mood s)
  | Op.setPosition position, s => some (RoboEyes.setPosition position s)
  | Op.setAutoblinker now random active interval variation, s =>
      some (RoboEyes.setAutoblinker now random active interval variation s)
  | Op.setIdleMode active interval variation, s =>
      some (RoboEyes.setIdleMode active interval variation s)
  | Op.setCuriosity b, s => some (RoboEyes.setCuriosity b s)
  | Op.setCyclops b, s => some (RoboEyes.setCyclops b s)
  | Op.setHFlicker b a, s => some (RoboEyes.setHFlicker b a s)
  | Op.setHFlickerBit b, s => some (RoboEyes.setHFlickerBit b s)
  | Op.setVFlicker b a, s => some (RoboEyes.setVFlicker b a s)
  | Op.setVFlickerBit b, s => some (RoboEyes.setVFlickerBit b s)
  | Op.setColors main background, s => some (RoboEyes.setColors main background s)
  | Op.close, s => some (RoboEyes.close s)
  | Op.openEyes, s => some (RoboEyes.openEyes s)
  | Op.blink l r, s => some (RoboEyes.blink l r s)
  | Op.closeLR l r, s => some (RoboEyes.closeLR l r s)
  | Op.openLR l r, s => some (RoboEyes.openLR l r s)
  | Op.anim_confused, s => some (RoboEyes.anim_confused s)
  | Op.anim_laugh, s => some (RoboEyes.anim_laugh s)

/-- The states reachable from the constructor by public operations. -/
inductive Reachable : State → Prop where
  | start (portrait : Bool) : Reachable (init portrait)
  | call (op : Op) (s s' : State) : Reachable s → op.run s = some s' → Reachable s'

/-! ## Conditions, invariants and sample states used by the theorems -/

/-- Whether a blink starts in a pass at the port's clock value. -/
def blinkStarts (p : Port) (s : State) : Prop :=
  (s.autoblinker = true ∧ ¬ s.blinkingActive = true) ∧ p.millis ≥ s.blinktimer

instance (p : Port) (s : State) : Decidable (blinkStarts p s) := by
  unfold blinkStarts; infer_instance

/-- Whether the blink hold ends in a pass at the port's clock value: a hold is
in progress after the first half of the autoblinker block, and its timer has
elapsed. -/
def holdEnds (p : Port) (s : State) : Prop :=
  if blinkStarts p s then p.millis ≥ u32 (p.millis + s.blinkCloseDuration)
  else s.blinkingActive = true ∧ p.millis ≥ s.blinkCloseDurationTimer

instance (p : Port) (s : State) : Decidable (holdEnds p s) := by
  unfold holdEnds; infer_instance

/-- No generator is active: curiosity, autoblink, idle, both flickers and both
bursts are off. -/
def Quiet (s : State) : Prop :=
  s.curious = false ∧ s.autoblinker = false ∧ s.idle = false ∧ s.hFlicker = false
    ∧ s.vFlicker = false ∧ s.confused = false ∧ s.laugh = false

/-- A run of passes in which `anim_confused()` may be called before a pass:
each entry says whether it is called, and gives the port of the pass. -/
def framesRetrig : List (Bool × Port) → State → State
  | [], s => s
  | (again, p) :: rest, s =>
      framesRetrig rest (drawEyes p (if again then anim_confused s else s)).1

/-- A port whose clock reads `t` and whose random source always returns 0. -/
def portAt (t : Nat) : Port :=
  { millis := t
    randomBlink := fun _ => 0
    randomIdleX := fun _ => 0
    randomIdleY := fun _ => 0
    randomIdle := fun _ => 0 }

/-- A blink is being held: both targets are closed and the hold is active. -/
def BlinkHold (s : State) : Prop :=
  s.eyeLheightNext = 1 ∧ s.eyeRheightNext = 1 ∧ s.eyeLborderRadiusNext = 0
    ∧ s.eyeRborderRadiusNext = 0 ∧ s.eyeL_open = false ∧ s.eyeR_open = false
    ∧ s.blinkingActive = true

/-- Both eyes are back at their defaults and no hold is active. -/
def BlinkReleased (s : State) : Prop :=
  s.eyeLheightNext = s.eyeLheightDefault ∧ s.eyeRheightNext = s.eyeRheightDefault
    ∧ s.eyeLborderRadiusNext = s.eyeLborderRadiusDefault
    ∧ s.eyeRborderRadiusNext = s.eyeRborderRadiusDefault
    ∧ s.eyeL_open = true ∧ s.eyeR_open = true ∧ s.blinkingActive = false

/-- The constructor state with the autoblinker switched on and its timer due. -/
def blinkDueState : State := { init true with autoblinker := true }

/-- The constructor state after `setAutoblinker(true, 1, 0)` called when
`millis()` reads `2^32 - 1096`: the next blink is due at `2^32 - 96`, less
than 150 ms before the 32-bit clock wraps. -/
def rolloverBlinkState : State :=
  setAutoblinker 4294966200 (fun _ => 0) true 1 0 (init true)

/-- A confusion burst that started at clock value `t0` is running. -/
def ConfusionRunning (t0 : Nat) (s : State) : Prop :=
  s.hFlicker = true ∧ s.confused = true ∧ s.confusedAnimationTimer = t0
    ∧ s.confusedToggle = false ∧ s.confusedAnimationDuration = 500

/-- The constructor state with idle mode switched on and its timer due. -/
def idleDueState : State := { init true with idle := true }

/-- The constructor state in cyclops mode. -/
def cyclopsState : State := { init true with cyclops := true }

/-- The constructor state with a negative frame interval written into the
public member `frameInterval`. -/
def negativeIntervalState : State := { init true with frameInterval := -1 }

/-- At most one of the mood flags is set. -/
def AtMostOneMood (s : State) : Prop :=
  ¬ (s.tired = true ∧ s.angry = true) ∧ ¬ (s.tired = true ∧ s.happy = true)
    ∧ ¬ (s.angry = true ∧ s.happy = true)

/-- The smoothing step of lines 494-510, `current = (current + target) / 2`. -/
def halve (target current : Int) : Int := cdiv (current + target) 2

/-- The first part of the height block: the blend of the two heights and the
vertical recentring. -/
def heightBlend (s : State) : State :=
  let s := { s with
    eyeLheightCurrent := cdiv (s.eyeLheightCurrent + s.eyeLheightNext + s.eyeLheightOffset) 2 }
  let s := { s with eyeLy := s.eyeLy + cdiv (s.eyeLheightDefault - s.eyeLheightCurrent) 2 }
  let s := { s with eyeLy := s.eyeLy - cdiv s.eyeLheightOffset 2 }
  let s := { s with
    eyeRheightCurrent := cdiv (s.eyeRheightCurrent + s.eyeRheightNext + s.eyeRheightOffset) 2 }
  let s := { s with eyeRy := s.eyeRy + cdiv (s.eyeRheightDefault - s.eyeRheightCurrent) 2 }
  { s with eyeRy := s.eyeRy - cdiv s.eyeRheightOffset 2 }

/-- The second part of the height block, lines 487-492: an open eye whose
current height is down to `1 + offset` gets the default height as its target
height. -/
def reopenRule (s : State) : State :=
  let s :=
    if s.eyeL_open then
      if s.eyeLheightCurrent ≤ 1 + s.eyeLheightOffset then
        { s with eyeLheightNext := s.eyeLheightDefault }
      else s
    else s
  if s.eyeR_open then
    if s.eyeRheightCurrent ≤ 1 + s.eyeRheightOffset then
      { s with eyeRheightNext := s.eyeRheightDefault }
    else s
  else s

/-- An eye flagged open has its target height at the default. -/
def OpenAtDefault (s : State) : Prop :=
  (s.eyeL_open = true → s.eyeLheightNext = s.eyeLheightDefault)
    ∧ (s.eyeR_open = true → s.eyeRheightNext = s.eyeRheightDefault)

/-- The state of the engine in a pass just before the flicker overlays: after
the smoothing and after the autoblinker, the bursts and idle have run. -/
def beforeFlicker (p : Port) (s : State) : State := idleStep p (beforeIdle p s)

/-- The constructor state with horizontal flicker on and the confusion burst
off: amplitude 2, the left eye on its target. -/
def flickerState : State := { init true with hFlicker := true }

/-- A state in the hold of a blink, as the autoblinker leaves it: the
constructor state with both targets closed and `blinkingActive` set. -/
def heldState : State :=
  { init true with
    autoblinker := true, blinkingActive := true, blinkCloseDurationTimer := 1150
    eyeLheightNext := 1, eyeRheightNext := 1
    eyeLborderRadiusNext := 0, eyeRborderRadiusNext := 0 }

/-- The horizontal centre for the sizes of a state, as the constructor and
`setScreenSize` compute it (lines 182 and 252). -/
def centreX (s : State) : Int :=
  cdiv (s.screenWidth - (s.eyeLwidthDefault + s.spaceBetweenDefault + s.eyeRwidthDefault)) 2

/-- The vertical centre for the sizes of a state, as the constructor and
`setScreenSize` compute it (lines 183 and 253). -/
def centreY (s : State) : Int :=
  cdiv (s.screenHeight - s.eyeLheightDefault) 2

/-! ## Arithmetic of the truncating division -/

/-- Truncation toward zero, by the sign of the dividend: rounding down for a
non-negative dividend, rounding up for a negative one. -/
theorem cdiv_two_cases (x : Int) :
    (0 ≤ x ∧ cdiv x 2 = x / 2) ∨ (x < 0 ∧ cdiv x 2 = -((-x) / 2)) := by
  unfold cdiv
  rcases le_or_lt 0 x with h | h
  · exact Or.inl ⟨h, Int.tdiv_eq_ediv h (by decide)⟩
  · refine Or.inr ⟨h, ?_⟩
    have h1 : (-x).tdiv 2 = (-x) / 2 := Int.tdiv_eq_ediv (by omega) (by decide)
    have h2 : (-(-x)).tdiv 2 = -((-x).tdiv 2) := Int.neg_tdiv (-x) 2
    rw [neg_neg] at h2
    rw [h2, h1]

/-- A value in the range of `unsigned long` is not changed by the conversion. -/
theorem u32_of_lt (x : Int) (h0 : 0 ≤ x) (h1 : x < 4294967296) : (u32 x : Int) = x := by
  unfold u32
  omega

/-! ## Each block of `drawEyes` as a single record update -/

/-- The curiosity block writes the two height offsets. -/
theorem curiosityOffsets_eq (s : State) :
    curiosityOffsets s = { s with
      eyeLheightOffset :=
        if s.curious then
          if s.eyeLxNext ≤ 10 then 8
          else if s.eyeLxNext ≥ getScreenConstraint_X s - 10 ∧ s.cyclops then 8 else 0
        else 0
      eyeRheightOffset :=
        if s.curious then
          if s.eyeRxNext ≥ s.screenWidth - s.eyeRwidthCurrent - 10 then 8 else 0
        else 0 } := by
  unfold curiosityOffsets
  dsimp only
  split_ifs <;> rfl

/-- The height block writes the current heights, the vertical positions and,
for an open eye whose height is down to `1 + offset`, the target height. -/
theorem smoothHeights_eq (s : State) :
    smoothHeights s = { s with
      eyeLheightCurrent := cdiv (s.eyeLheightCurrent + s.eyeLheightNext + s.eyeLheightOffset) 2
      eyeLy := s.eyeLy
        + cdiv (s.eyeLheightDefault
            - cdiv (s.eyeLheightCurrent + s.eyeLheightNext + s.eyeLheightOffset) 2) 2
        - cdiv s.eyeLheightOffset 2
      eyeRheightCurrent := cdiv (s.eyeRheightCurrent + s.eyeRheightNext + s.eyeRheightOffset) 2
      eyeRy := s.eyeRy
        + cdiv (s.eyeRheightDefault
            - cdiv (s.eyeRheightCurrent + s.eyeRheightNext + s.eyeRheightOffset) 2) 2
        - cdiv s.eyeRheightOffset 2
      eyeLheightNext :=
        if s.eyeL_open then
          if cdiv (s.eyeLheightCurrent + s.eyeLheightNext + s.eyeLheightOffset) 2
              ≤ 1 + s.eyeLheightOffset
          then s.eyeLheightDefault else s.eyeLheightNext
        else s.eyeLheightNext
      eyeRheightNext :=
        if s.eyeR_open then
          if cdiv (s.eyeRheightCurrent + s.eyeRheightNext + s.eyeRheightOffset) 2
              ≤ 1 + s.eyeRheightOffset
          then s.eyeRheightDefault else s.eyeRheightNext
        else s.eyeRheightNext } := by
  unfold smoothHeights
  dsimp only
  split_ifs <;> rfl

/-- The geometry block writes the current widths, spacing, positions and radii
and the right eye's target. -/
theorem smoothGeometry_eq (s : State) :
    smoothGeometry s = { s with
      eyeLwidthCurrent := cdiv (s.eyeLwidthCurrent + s.eyeLwidthNext) 2
      eyeRwidthCurrent := cdiv (s.eyeRwidthCurrent + s.eyeRwidthNext) 2
      spaceBetweenCurrent := cdiv (s.spaceBetweenCurrent + s.spaceBetweenNext) 2
      eyeLx := cdiv (s.eyeLx + s.eyeLxNext) 2
      eyeLy := cdiv (s.eyeLy + s.eyeLyNext) 2
      eyeRxNext := s.eyeLxNext + cdiv (s.eyeLwidthCurrent + s.eyeLwidthNext) 2
        + cdiv (s.spaceBetweenCurrent + s.spaceBetweenNext) 2
      eyeRyNext := s.eyeLyNext
      eyeRx := cdiv (s.eyeRx + (s.eyeLxNext + cdiv (s.eyeLwidthCurrent + s.eyeLwidthNext) 2
        + cdiv (s.spaceBetweenCurrent + s.spaceBetweenNext) 2)) 2
      eyeRy := cdiv (s.eyeRy + s.eyeLyNext) 2
      eyeLborderRadiusCurrent := (s.eyeLborderRadiusCurrent + s.eyeLborderRadiusNext) / 2 % 256
      eyeRborderRadiusCurrent := (s.eyeRborderRadiusCurrent + s.eyeRborderRadiusNext) / 2 % 256 } :=
  rfl

/-- The autoblinker block, by whether a blink starts and whether the hold ends. -/
theorem autoblinkStep_eq (p : Port) (s : State) :
    autoblinkStep p s = { s with
      eyeLheightNext :=
        if holdEnds p s then s.eyeLheightDefault
        else if blinkStarts p s then 1 else s.eyeLheightNext
      eyeRheightNext :=
        if holdEnds p s then s.eyeRheightDefault
        else if blinkStarts p s then 1 else s.eyeRheightNext
      eyeL_open :=
        if holdEnds p s then true else if blinkStarts p s then false else s.eyeL_open
      eyeR_open :=
        if holdEnds p s then true else if blinkStarts p s then false else s.eyeR_open
      eyeLborderRadiusNext :=
        if holdEnds p s then s.eyeLborderRadiusDefault
        else if blinkStarts p s then 0 else s.eyeLborderRadiusNext
      eyeRborderRadiusNext :=
        if holdEnds p s then s.eyeRborderRadiusDefault
        else if blinkStarts p s then 0 else s.eyeRborderRadiusNext
      blinkingActive :=
        if holdEnds p s then false else if blinkStarts p s then true else s.blinkingActive
      blinkCloseDurationTimer :=
        if blinkStarts p s then u32 (p.millis + s.blinkCloseDuration)
        else s.blinkCloseDurationTimer
      blinktimer :=
        if blinkStarts p s then
          u32 (p.millis + s.blinkInterval * 1000 + p.randomBlink s.blinkIntervalVariation * 1000)
        else s.blinktimer } := by
  unfold autoblinkStep holdEnds blinkStarts close openEyes
  dsimp only
  split_ifs <;> first | rfl | (exfalso; simp_all)

/-- The laugh block writes the vertical flicker and its own toggle, timer and
flag. -/
theorem laughStep_eq (p : Port) (s : State) :
    laughStep p s = { s with
      vFlicker :=
        if s.laugh then
          if s.laughToggle then true
          else if p.millis ≥ u32 (s.laughAnimationTimer + s.laughAnimationDuration) then false
          else s.vFlicker
        else s.vFlicker
      vFlickerAmplitude :=
        if s.laugh then
          if s.laughToggle then 5
          else if p.millis ≥ u32 (s.laughAnimationTimer + s.laughAnimationDuration) then 0
          else s.vFlickerAmplitude
        else s.vFlickerAmplitude
      laughAnimationTimer :=
        if s.laugh then
          if s.laughToggle then p.millis else s.laughAnimationTimer
        else s.laughAnimationTimer
      laughToggle :=
        if s.laugh then
          if s.laughToggle then false
          else if p.millis ≥ u32 (s.laughAnimationTimer + s.laughAnimationDuration) then true
          else s.laughToggle
        else s.laughToggle
      laugh :=
        if s.laugh then
          if s.laughToggle then s.laugh
          else if p.millis ≥ u32 (s.laughAnimationTimer + s.laughAnimationDuration) then false
          else s.laugh
        else s.laugh } := by
  unfold laughStep setVFlicker
  dsimp only
  split_ifs <;> rfl

/-- The confusion block writes the horizontal flicker and its own toggle,
timer and flag. -/
theorem confusedStep_eq (p : Port) (s : State) :
    confusedStep p s = { s with
      hFlicker :=
        if s.confused then
          if s.confusedToggle then true
          else if p.millis ≥ u32 (s.confusedAnimationTimer + s.confusedAnimationDuration)
          then false else s.hFlicker
        else s.hFlicker
      hFlickerAmplitude :=
        if s.confused then
          if s.confusedToggle then 20
          else if p.millis ≥ u32 (s.confusedAnimationTimer + s.confusedAnimationDuration)
          then 0 else s.hFlickerAmplitude
        else s.hFlickerAmplitude
      confusedAnimationTimer :=
        if s.confused then
          if s.confusedToggle then p.millis else s.confusedAnimationTimer
        else s.confusedAnimationTimer
      confusedToggle :=
        if s.confused then
          if s.confusedToggle then false
          else if p.millis ≥ u32 (s.confusedAnimationTimer + s.confusedAnimationDuration)
          then true else s.confusedToggle
        else s.confusedToggle
      confused :=
        if s.confused then
          if s.confusedToggle then s.confused
          else if p.millis ≥ u32 (s.confusedAnimationTimer + s.confusedAnimationDuration)
          then false else s.confused
        else s.confused } := by
  unfold confusedStep setHFlicker
  dsimp only
  split_ifs <;> rfl

/-- The idle block writes the left eye's target and its own timer. -/
theorem idleStep_eq (p : Port) (s : State) :
    idleStep p s = { s with
      eyeLxNext :=
        if idleFires p s then p.randomIdleX (getScreenConstraint_X s) else s.eyeLxNext
      eyeLyNext :=
        if idleFires p s then p.randomIdleY (getScreenConstraint_Y s) else s.eyeLyNext
      idleAnimationTimer :=
        if idleFires p s then
          u32 (p.millis + s.idleInterval * 1000 + p.randomIdle s.idleIntervalVariation * 1000)
        else s.idleAnimationTimer } := by
  unfold idleStep idleFires getScreenConstraint_X getScreenConstraint_Y
  dsimp only
  split_ifs <;> first | rfl | (exfalso; simp_all)

/-- The horizontal flicker displaces both eyes and flips its alternate bit. -/
theorem hFlickerStep_eq (s : State) :
    hFlickerStep s = { s with
      eyeLx :=
        if s.hFlicker then
          if s.hFlickerAlternate then s.eyeLx + s.hFlickerAmplitude
          else s.eyeLx - s.hFlickerAmplitude
        else s.eyeLx
      eyeRx :=
        if s.hFlicker then
          if s.hFlickerAlternate then s.eyeRx + s.hFlickerAmplitude
          else s.eyeRx - s.hFlickerAmplitude
        else s.eyeRx
      hFlickerAlternate := if s.hFlicker then !s.hFlickerAlternate else s.hFlickerAlternate } := by
  unfold hFlickerStep
  dsimp only
  split_ifs <;> rfl

/-- The vertical flicker displaces both eyes and flips its alternate bit. -/
theorem vFlickerStep_eq (s : State) :
    vFlickerStep s = { s with
      eyeLy :=
        if s.vFlicker then
          if s.vFlickerAlternate then s.eyeLy + s.vFlickerAmplitude
          else s.eyeLy - s.vFlickerAmplitude
        else s.eyeLy
      eyeRy :=
        if s.vFlicker then
          if s.vFlickerAlternate then s.eyeRy + s.vFlickerAmplitude
          else s.eyeRy - s.vFlickerAmplitude
        else s.eyeRy
      vFlickerAlternate := if s.vFlicker then !s.vFlickerAlternate else s.vFlickerAlternate } := by
  unfold vFlickerStep
  dsimp only
  split_ifs <;> rfl

/-- Cyclops mode zeroes the right eye's current size and the spacing. -/
theorem cyclopsStep_eq (s : State) :
    cyclopsStep s = { s with
      eyeRwidthCurrent := if s.cyclops then 0 else s.eyeRwidthCurrent
      eyeRheightCurrent := if s.cyclops then 0 else s.eyeRheightCurrent
      spaceBetweenCurrent := if s.cyclops then 0 else s.spaceBetweenCurrent } := by
  unfold cyclopsStep
  split_ifs <;> rfl

/-- The mood block writes the three eyelid targets. -/
theorem moodTargets_eq (s : State) :
    moodTargets s = { s with
      eyelidsTiredHeightNext :=
        if s.angry then 0
        else if s.tired then u8 (cdiv s.eyeLheightCurrent 2) else 0
      eyelidsAngryHeightNext := if s.angry then u8 (cdiv s.eyeLheightCurrent 2) else 0
      eyelidsHappyBottomOffsetNext := if s.happy then u8 (cdiv s.eyeLheightCurrent 2) else 0 } := by
  unfold moodTargets
  dsimp only
  split_ifs <;> rfl

/-! ## Reopening (C1) -/

/-- Halving the gap from below: between 1 and `H - 1` the step stays in that
range and the distance to `H - 1` is halved (rounded down). -/
theorem halve_below (c H : Int) (h1 : 1 ≤ c) (h2 : c ≤ H - 1) :
    1 ≤ cdiv (c + H) 2 ∧ cdiv (c + H) 2 ≤ H - 1
      ∧ H - 1 - cdiv (c + H) 2 = (H - 1 - c) / 2 := by
  have h := cdiv_two_cases (c + H)
  omega

/-- One pass on an eye that is reopening with curiosity and autoblink off: the
left eye keeps its target at the default height and halves the gap. -/
theorem drawEyes_reopenL (p : Port) (s : State) (hc : s.curious = false)
    (ha : s.autoblinker = false) (hn : s.eyeLheightNext = s.eyeLheightDefault) :
    (drawEyes p s).1.curious = false ∧ (drawEyes p s).1.autoblinker = false
      ∧ (drawEyes p s).1.eyeLheightDefault = s.eyeLheightDefault
      ∧ (drawEyes p s).1.eyeLheightNext = s.eyeLheightDefault
      ∧ (drawEyes p s).1.eyeLheightCurrent
          = cdiv (s.eyeLheightCurrent + s.eyeLheightDefault) 2 := by
  simp only [drawEyes, beforeIdle, moodTargets_eq, cyclopsStep_eq, vFlickerStep_eq,
    hFlickerStep_eq, idleStep_eq, confusedStep_eq, laughStep_eq, autoblinkStep_eq,
    smoothGeometry_eq, smoothHeights_eq, curiosityOffsets_eq, blinkStarts, holdEnds]
  simp [hc, ha, hn]

/-- The same pass seen from the right eye, when cyclops mode is off. -/
theorem drawEyes_reopenR (p : Port) (s : State) (hc : s.curious = false)
    (ha : s.autoblinker = false) (hy : s.cyclops = false)
    (hn : s.eyeRheightNext = s.eyeRheightDefault) :
    (drawEyes p s).1.curious = false ∧ (drawEyes p s).1.autoblinker = false
      ∧ (drawEyes p s).1.cyclops = false
      ∧ (drawEyes p s).1.eyeRheightDefault = s.eyeRheightDefault
      ∧ (drawEyes p s).1.eyeRheightNext = s.eyeRheightDefault
      ∧ (drawEyes p s).1.eyeRheightCurrent
          = cdiv (s.eyeRheightCurrent + s.eyeRheightDefault) 2 := by
  simp only [drawEyes, beforeIdle, moodTargets_eq, cyclopsStep_eq, vFlickerStep_eq,
    hFlickerStep_eq, idleStep_eq, confusedStep_eq, laughStep_eq, autoblinkStep_eq,
    smoothGeometry_eq, smoothHeights_eq, curiosityOffsets_eq, blinkStarts, holdEnds]
  simp [hc, ha, hn, hy]

/-- Over a run of passes the left eye's height stays between 1 and
`default - 1`, and its distance to `default - 1` shrinks by the factor
`2 ^ (number of passes)`. -/
theorem frames_reopenL (ps : List Port) :
    ∀ s : State, s.curious = false → s.autoblinker = false →
      s.eyeLheightNext = s.eyeLheightDefault → 1 ≤ s.eyeLheightCurrent →
      s.eyeLheightCurrent ≤ s.eyeLheightDefault - 1 →
      1 ≤ (frames ps s).eyeLheightCurrent
        ∧ (frames ps s).eyeLheightCurrent ≤ s.eyeLheightDefault - 1
        ∧ (s.eyeLheightDefault - 1 - (frames ps s).eyeLheightCurrent) * 2 ^ ps.length
            ≤ s.eyeLheightDefault - 1 - s.eyeLheightCurrent := by
  induction ps with
  | nil => intro s _ _ _ h1 h2; simp [frames, h1, h2]
  | cons p ps ih =>
    intro s hc ha hn h1 h2
    obtain ⟨hc1, ha1, hd1, hn1, hcur1⟩ := drawEyes_reopenL p s hc ha hn
    obtain ⟨k1, k2, k3⟩ := halve_below _ _ h1 h2
    have := ih (drawEyes p s).1 hc1 ha1 (by rw [hn1, hd1]) (by rw [hcur1]; exact k1)
      (by rw [hcur1, hd1]; exact k2)
    rw [hd1, hcur1, k3] at this
    simp only [frames, List.length_cons]
    refine ⟨this.1, this.2.1, ?_⟩
    have h3 := this.2.2
    rw [pow_succ, ← mul_assoc]
    omega

/-- The run of `frames_reopenL` for the right eye, cyclops mode off. -/
theorem frames_reopenR (ps : List Port) :
    ∀ s : State, s.curious = false → s.autoblinker = false → s.cyclops = false →
      s.eyeRheightNext = s.eyeRheightDefault → 1 ≤ s.eyeRheightCurrent →
      s.eyeRheightCurrent ≤ s.eyeRheightDefault - 1 →
      1 ≤ (frames ps s).eyeRheightCurrent
        ∧ (frames ps s).eyeRheightCurrent ≤ s.eyeRheightDefault - 1
        ∧ (s.eyeRheightDefault - 1 - (frames ps s).eyeRheightCurrent) * 2 ^ ps.length
            ≤ s.eyeRheightDefault - 1 - s.eyeRheightCurrent := by
  induction ps with
  | nil => intro s _ _ _ _ h1 h2; simp [frames, h1, h2]
  | cons p ps ih =>
    intro s hc ha hy hn h1 h2
    obtain ⟨hc1, ha1, hy1, hd1, hn1, hcur1⟩ := drawEyes_reopenR p s hc ha hy hn
    obtain ⟨k1, k2, k3⟩ := halve_below _ _ h1 h2
    have := ih (drawEyes p s).1 hc1 ha1 hy1 (by rw [hn1, hd1]) (by rw [hcur1]; exact k1)
      (by rw [hcur1, hd1]; exact k2)
    rw [hd1, hcur1, k3] at this
    simp only [frames, List.length_cons]
    refine ⟨this.1, this.2.1, ?_⟩
    have h3 := this.2.2
    rw [pow_succ, ← mul_assoc]
    omega

/-- A gap that starts below `H` and has shrunk by the factor `2 ^ n`, with
`n > log2 H`, is zero. -/
theorem gap_vanishes (H n : Nat) (d : Int) (hn : Nat.log 2 H + 1 ≤ n) (hd : 0 ≤ d)
    (hle : d * 2 ^ n ≤ (H : Int) - 1 - 1) : d = 0 := by
  have h1 : H < 2 ^ (Nat.log 2 H + 1) := Nat.lt_pow_succ_log_self (by norm_num) H
  have h2 : 2 ^ (Nat.log 2 H + 1) ≤ 2 ^ n := Nat.pow_le_pow_right (by norm_num) hn
  have h3 : (H : Int) < (2 : Int) ^ n := by exact_mod_cast lt_of_lt_of_le h1 h2
  by_contra hne
  have h4 : 1 ≤ d := by omega
  have h5 : (2 : Int) ^ n ≤ d * 2 ^ n := by nlinarith [pow_pos (show (0 : Int) < 2 by norm_num) n]
  omega

/-- C1, as amended: with curiosity and autoblink off, an eye of default height
`H >= 2` that is reopened by `open()` from current height 1 has current height
`H - 1` after any `log2 H + 1` or more passes of `drawEyes`, and at no time
height `H`: the halving stalls one pixel short of the default.  This holds for
the left eye, and for the right eye when cyclops mode is off. -/
theorem reopening_stalls_one_short (s : State) (hc : s.curious = false)
    (ha : s.autoblinker = false) :
    (∀ H : Nat, 2 ≤ H → s.eyeLheightDefault = H → s.eyeLheightCurrent = 1 →
      (∀ ps : List Port, Nat.log 2 H + 1 ≤ ps.length →
          (frames ps (openEyes s)).eyeLheightCurrent = (H : Int) - 1)
        ∧ ∀ ps : List Port, (frames ps (openEyes s)).eyeLheightCurrent ≠ H)
    ∧ (∀ H : Nat, 2 ≤ H → s.eyeRheightDefault = H → s.eyeRheightCurrent = 1 →
      s.cyclops = false →
      (∀ ps : List Port, Nat.log 2 H + 1 ≤ ps.length →
          (frames ps (openEyes s)).eyeRheightCurrent = (H : Int) - 1)
        ∧ ∀ ps : List Port, (frames ps (openEyes s)).eyeRheightCurrent ≠ H) := by
  constructor
  · intro H hH hd h1
    have key : ∀ ps : List Port, _ := fun ps =>
      frames_reopenL ps (openEyes s) hc ha rfl (by show s.eyeLheightCurrent ≥ 1; omega)
        (by show s.eyeLheightCurrent ≤ s.eyeLheightDefault - 1; omega)
    constructor
    · intro ps hlen
      obtain ⟨k1, k2, k3⟩ := key ps
      have e1 : (openEyes s).eyeLheightDefault = H := hd
      have e2 : (openEyes s).eyeLheightCurrent = 1 := h1
      rw [e1] at k2 k3
      rw [e2] at k3
      have := gap_vanishes H ps.length _ hlen (by omega) k3
      omega
    · intro ps
      obtain ⟨_, k2, _⟩ := key ps
      have e1 : (openEyes s).eyeLheightDefault = H := hd
      rw [e1] at k2
      omega
  · intro H hH hd h1 hy
    have key : ∀ ps : List Port, _ := fun ps =>
      frames_reopenR ps (openEyes s) hc ha hy rfl (by show s.eyeRheightCurrent ≥ 1; omega)
        (by show s.eyeRheightCurrent ≤ s.eyeRheightDefault - 1; omega)
    constructor
    · intro ps hlen
      obtain ⟨k1, k2, k3⟩ := key ps
      have e1 : (openEyes s).eyeRheightDefault = H := hd
      have e2 : (openEyes s).eyeRheightCurrent = 1 := h1
      rw [e1] at k2 k3
      rw [e2] at k3
      have := gap_vanishes H ps.length _ hlen (by omega) k3
      omega
    · intro ps
      obtain ⟨_, k2, _⟩ := key ps
      have e1 : (openEyes s).eyeRheightDefault = H := hd
      rw [e1] at k2
      omega

/-- Witness for C1 as amended: the constructor state, whose eyes have default
height 36 and start at height 1. -/
theorem reopening_stalls_one_short_witness :
    (init true).curious = false ∧ (init true).autoblinker = false
      ∧ ((∀ ps : List Port, Nat.log 2 36 + 1 ≤ ps.length →
            (frames ps (openEyes (init true))).eyeLheightCurrent = ((36 : Nat) : Int) - 1)
          ∧ ∀ ps : List Port,
            (frames ps (openEyes (init true))).eyeLheightCurrent ≠ ((36 : Nat) : Int)) :=
  ⟨rfl, rfl, (reopening_stalls_one_short (init true) rfl rfl).1 36 (by decide) rfl rfl⟩

/-- C1 as stated fails on the constructor state (default height 36, current
height 1, every generator off): after `open()`, no run of passes, of whatever
length, brings the left eye's current height to 36. -/
theorem reopening_never_reaches_default :
    (init true).eyeLheightDefault = 36 ∧ (init true).eyeLheightCurrent = 1
      ∧ Quiet (init true)
      ∧ ¬ ∃ ps : List Port, (frames ps (openEyes (init true))).eyeLheightCurrent = 36 := by
  refine ⟨rfl, rfl, ⟨rfl, rfl, rfl, rfl, rfl, rfl, rfl⟩, ?_⟩
  rintro ⟨ps, h⟩
  have := (frames_reopenL ps (openEyes (init true)) rfl rfl rfl (by decide) (by decide)).2.1
  rw [h] at this
  exact absurd this (by decide)

/-! ## Blink hold (C2) -/

/-- The pass in which a blink starts, the clock not wrapping within the hold:
the eyes are closed, the hold is active and its timer is the clock plus the
hold duration. -/
theorem drawEyes_blink_start (p : Port) (s : State) (ha : s.autoblinker = true)
    (hb : s.blinkingActive = false) (ht : p.millis ≥ s.blinktimer)
    (hd : 0 < s.blinkCloseDuration)
    (hw : p.millis + s.blinkCloseDuration < 4294967296) :
    BlinkHold (drawEyes p s).1
      ∧ ((drawEyes p s).1.blinkCloseDurationTimer : Int) = p.millis + s.blinkCloseDuration := by
  have hu := u32_of_lt (p.millis + s.blinkCloseDuration) (by omega) hw
  have hlt : ¬ (p.millis ≥ u32 (p.millis + s.blinkCloseDuration)) := by omega
  simp only [drawEyes, beforeIdle, moodTargets_eq, cyclopsStep_eq, vFlickerStep_eq,
    hFlickerStep_eq, idleStep_eq, confusedStep_eq, laughStep_eq, autoblinkStep_eq,
    smoothGeometry_eq, smoothHeights_eq, curiosityOffsets_eq, blinkStarts, holdEnds, BlinkHold]
  simp [ha, hb, ht, hlt, hu]

/-- A pass during the hold, before its timer has elapsed, changes nothing of
the hold. -/
theorem drawEyes_blink_held (q : Port) (s : State) (h : BlinkHold s)
    (ht : q.millis < s.blinkCloseDurationTimer) :
    BlinkHold (drawEyes q s).1
      ∧ (drawEyes q s).1.blinkCloseDurationTimer = s.blinkCloseDurationTimer := by
  obtain ⟨h1, h2, h3, h4, h5, h6, h7⟩ := h
  have hlt : ¬ (s.blinkCloseDurationTimer ≤ q.millis) := by omega
  simp only [drawEyes, beforeIdle, moodTargets_eq, cyclopsStep_eq, vFlickerStep_eq,
    hFlickerStep_eq, idleStep_eq, confusedStep_eq, laughStep_eq, autoblinkStep_eq,
    smoothGeometry_eq, smoothHeights_eq, curiosityOffsets_eq, blinkStarts, holdEnds, BlinkHold]
  simp [h1, h2, h3, h4, h5, h6, h7, hlt]

/-- The pass in which the hold timer has elapsed reopens both eyes. -/
theorem drawEyes_blink_release (q : Port) (s : State) (h : BlinkHold s)
    (ht : s.blinkCloseDurationTimer ≤ q.millis) :
    BlinkReleased (drawEyes q s).1 := by
  obtain ⟨h1, h2, h3, h4, h5, h6, h7⟩ := h
  simp only [drawEyes, beforeIdle, moodTargets_eq, cyclopsStep_eq, vFlickerStep_eq,
    hFlickerStep_eq, idleStep_eq, confusedStep_eq, laughStep_eq, autoblinkStep_eq,
    smoothGeometry_eq, smoothHeights_eq, curiosityOffsets_eq, blinkStarts, holdEnds,
    BlinkReleased]
  simp [h1, h2, h3, h4, h5, h6, h7, ht]

/-- A run of passes that all come before the hold timer keeps the hold. -/
theorem frames_blink_held (ps : List Port) :
    ∀ s : State, BlinkHold s → (∀ q ∈ ps, q.millis < s.blinkCloseDurationTimer) →
      BlinkHold (frames ps s)
        ∧ (frames ps s).blinkCloseDurationTimer = s.blinkCloseDurationTimer := by
  induction ps with
  | nil => intro s h _; exact ⟨h, rfl⟩
  | cons p ps ih =>
    intro s h hall
    obtain ⟨k1, k2⟩ := drawEyes_blink_held p s h (hall p (List.mem_cons_self _ _))
    have := ih (drawEyes p s).1 k1
      (fun q hq => by rw [k2]; exact hall q (List.mem_cons_of_mem _ hq))
    simp only [frames]
    exact ⟨this.1, this.2.trans k2⟩

/-- Away from the wrap of the clock the hold lasts 150 ms: with autoblink
enabled, no blink in progress and a hold duration of 150 ms, a pass at clock
time `t >= blinktimer` with `t + 150 < 2^32` ends with both targets closed and
the hold active; every run of later passes at times below `t + 150` leaves it
so; and the first pass at a time `>= t + 150` restores targets and radii to
the defaults, sets both open flags and ends the hold. -/
theorem blink_hold_timing (s : State) (p : Port) (ha : s.autoblinker = true)
    (hb : s.blinkingActive = false) (ht : p.millis ≥ s.blinktimer)
    (hd : s.blinkCloseDuration = 150) (hw : p.millis + 150 < 4294967296) :
    BlinkHold (drawEyes p s).1
      ∧ (∀ ps : List Port, (∀ q ∈ ps, q.millis < p.millis + 150) →
          BlinkHold (frames ps (drawEyes p s).1))
      ∧ (∀ (ps : List Port) (q : Port), (∀ r ∈ ps, r.millis < p.millis + 150) →
          p.millis + 150 ≤ q.millis →
          BlinkReleased (drawEyes q (frames ps (drawEyes p s).1)).1) := by
  obtain ⟨k1, k2⟩ := drawEyes_blink_start p s ha hb ht (by omega) (by omega)
  have k3 : (drawEyes p s).1.blinkCloseDurationTimer = p.millis + 150 := by omega
  refine ⟨k1, ?_, ?_⟩
  · intro ps hall
    exact (frames_blink_held ps _ k1 (fun q hq => by rw [k3]; exact hall q hq)).1
  · intro ps q hall hq
    obtain ⟨m1, m2⟩ := frames_blink_held ps _ k1 (fun r hr => by rw [k3]; exact hall r hr)
    exact drawEyes_blink_release q _ m1 (by rw [m2, k3]; exact hq)

/-- The hold of 150 ms at the constructor state with the autoblinker on and a
pass at clock time 1000. -/
theorem blink_hold_timing_witness :
    BlinkHold (drawEyes (portAt 1000) blinkDueState).1
      ∧ (∀ ps : List Port, (∀ q ∈ ps, q.millis < (portAt 1000).millis + 150) →
          BlinkHold (frames ps (drawEyes (portAt 1000) blinkDueState).1))
      ∧ (∀ (ps : List Port) (q : Port), (∀ r ∈ ps, r.millis < (portAt 1000).millis + 150) →
          (portAt 1000).millis + 150 ≤ q.millis →
          BlinkReleased (drawEyes q (frames ps (drawEyes (portAt 1000) blinkDueState).1)).1) :=
  blink_hold_timing blinkDueState (portAt 1000) rfl rfl (by decide) rfl (by decide)

/-- C2 fails in the code at the wrap of the 32-bit clock.  The state
`rolloverBlinkState` is reachable by the public interface, has autoblink
enabled, no blink in progress, a hold duration of 150 ms and its blink due at
`2^32 - 96`.  In the pass at that clock value the hold timer
`millis() + blinkCloseDuration` wraps to 54, the test `millis() >=
blinkCloseDurationTimer` of the same pass sees it as elapsed, and the pass
ends with no hold: both target heights are back at the default 36, both radii
at 8, both open flags set and `blinkingActive` cleared. -/
theorem blink_hold_lost_at_clock_wrap :
    Reachable rolloverBlinkState
      ∧ rolloverBlinkState.autoblinker = true ∧ rolloverBlinkState.blinkingActive = false
      ∧ rolloverBlinkState.blinkCloseDuration = 150
      ∧ rolloverBlinkState.blinktimer = 4294967200
      ∧ (portAt 4294967200).millis ≥ rolloverBlinkState.blinktimer
      ∧ (drawEyes (portAt 4294967200) rolloverBlinkState).1.blinkCloseDurationTimer = 54
      ∧ ¬ BlinkHold (drawEyes (portAt 4294967200) rolloverBlinkState).1
      ∧ (drawEyes (portAt 4294967200) rolloverBlinkState).1.blinkingActive = false
      ∧ (drawEyes (portAt 4294967200) rolloverBlinkState).1.eyeLheightNext = 36
      ∧ (drawEyes (portAt 4294967200) rolloverBlinkState).1.eyeRheightNext = 36
      ∧ (drawEyes (portAt 4294967200) rolloverBlinkState).1.eyeLborderRadiusNext = 8
      ∧ (drawEyes (portAt 4294967200) rolloverBlinkState).1.eyeRborderRadiusNext = 8
      ∧ (drawEyes (portAt 4294967200) rolloverBlinkState).1.eyeL_open = true
      ∧ (drawEyes (portAt 4294967200) rolloverBlinkState).1.eyeR_open = true := by
  refine ⟨Reachable.call (Op.setAutoblinker 4294966200 (fun _ => 0) true 1 0) (init true) _
      (Reachable.start true) rfl, rfl, rfl, rfl, by decide, by decide, by decide, ?_,
    by decide, by decide, by decide, by decide, by decide, by decide, by decide⟩
  intro h
  exact absurd h.2.2.2.2.2.2 (by decide)

/-! ## Confusion burst (C3) -/

/-- The first pass after `anim_confused()` on an armed toggle starts the burst
and records the clock. -/
theorem drawEyes_confusion_start (p : Port) (s : State) (htog : s.confusedToggle = true)
    (hd : s.confusedAnimationDuration = 500) :
    ConfusionRunning p.millis (drawEyes p (anim_confused s)).1 := by
  simp only [drawEyes, beforeIdle, moodTargets_eq, cyclopsStep_eq, vFlickerStep_eq,
    hFlickerStep_eq, idleStep_eq, confusedStep_eq, laughStep_eq, autoblinkStep_eq,
    smoothGeometry_eq, smoothHeights_eq, curiosityOffsets_eq, ConfusionRunning, anim_confused]
  simp [htog, hd]

/-- A pass before the end of the burst, with or without a new call of
`anim_confused()` before it, leaves the burst running and its start time
unchanged. -/
theorem drawEyes_confusion_running (q : Port) (again : Bool) (t0 : Nat) (s : State)
    (h : ConfusionRunning t0 s) (ht : q.millis < u32 ((t0 : Int) + 500)) :
    ConfusionRunning t0 (drawEyes q (if again then anim_confused s else s)).1 := by
  obtain ⟨h1, h2, h3, h4, h5⟩ := h
  have hlt : ¬ (u32 ((t0 : Int) + 500) ≤ q.millis) := by omega
  cases again <;>
  · simp only [drawEyes, beforeIdle, moodTargets_eq, cyclopsStep_eq, vFlickerStep_eq,
      hFlickerStep_eq, idleStep_eq, confusedStep_eq, laughStep_eq, autoblinkStep_eq,
      smoothGeometry_eq, smoothHeights_eq, curiosityOffsets_eq, ConfusionRunning, anim_confused]
    simp [h1, h2, h3, h4, h5, hlt]

/-- The pass at or after the end of the burst switches the flicker off, clears
the flag and re-arms the toggle. -/
theorem drawEyes_confusion_end (q : Port) (again : Bool) (t0 : Nat) (s : State)
    (h : ConfusionRunning t0 s) (ht : u32 ((t0 : Int) + 500) ≤ q.millis) :
    (drawEyes q (if again then anim_confused s else s)).1.hFlicker = false
      ∧ (drawEyes q (if again then anim_confused s else s)).1.confused = false
      ∧ (drawEyes q (if again then anim_confused s else s)).1.confusedToggle = true := by
  obtain ⟨h1, h2, h3, h4, h5⟩ := h
  cases again <;>
  · simp only [drawEyes, beforeIdle, moodTargets_eq, cyclopsStep_eq, vFlickerStep_eq,
      hFlickerStep_eq, idleStep_eq, confusedStep_eq, laughStep_eq, autoblinkStep_eq,
      smoothGeometry_eq, smoothHeights_eq, curiosityOffsets_eq, anim_confused]
    simp [h1, h2, h3, h4, h5, ht]

/-- A run of passes before the end of the burst, with any calls of
`anim_confused()` in between, leaves the burst running. -/
theorem framesRetrig_confusion_running (t0 : Nat) (run : List (Bool × Port)) :
    ∀ s : State, ConfusionRunning t0 s → (∀ e ∈ run, e.2.millis < u32 ((t0 : Int) + 500)) →
      ConfusionRunning t0 (framesRetrig run s) := by
  induction run with
  | nil => intro s h _; exact h
  | cons e run ih =>
    intro s h hall
    obtain ⟨again, p⟩ := e
    simp only [framesRetrig]
    exact ih _ (drawEyes_confusion_running p again t0 s h (hall _ (List.mem_cons_self _ _)))
      (fun e he => hall e (List.mem_cons_of_mem _ he))

/-- Away from the wrap of the clock the burst lasts 500 ms: from a state with
`confused = false`, `confusedToggle = true` and a burst duration of 500 ms,
after `anim_confused()` the first pass, at time `t0`, enables horizontal
flicker and records `t0`; when `t0 + 500 < 2^32`, on every later pass at a
time below `t0 + 500` flicker and flag stay set and the recorded time stays
`t0`, also when `anim_confused()` is called again in between, and on the first
pass at a time `>= t0 + 500` flicker is disabled, the flag is cleared and the
toggle is re-armed. -/
theorem confusion_burst_duration (s : State) (p0 : Port) (hc : s.confused = false)
    (htog : s.confusedToggle = true) (hd : s.confusedAnimationDuration = 500) :
    ((drawEyes p0 (anim_confused s)).1.hFlicker = true
        ∧ (drawEyes p0 (anim_confused s)).1.confused = true
        ∧ (drawEyes p0 (anim_confused s)).1.confusedAnimationTimer = p0.millis)
      ∧ (p0.millis + 500 < 4294967296 →
        (∀ run : List (Bool × Port), (∀ e ∈ run, e.2.millis < p0.millis + 500) →
          (framesRetrig run (drawEyes p0 (anim_confused s)).1).hFlicker = true
            ∧ (framesRetrig run (drawEyes p0 (anim_confused s)).1).confused = true
            ∧ (framesRetrig run (drawEyes p0 (anim_confused s)).1).confusedAnimationTimer
                = p0.millis)
        ∧ (∀ (run : List (Bool × Port)) (again : Bool) (q : Port),
          (∀ e ∈ run, e.2.millis < p0.millis + 500) → p0.millis + 500 ≤ q.millis →
          (drawEyes q (if again
              then anim_confused (framesRetrig run (drawEyes p0 (anim_confused s)).1)
              else framesRetrig run (drawEyes p0 (anim_confused s)).1)).1.hFlicker = false
            ∧ (drawEyes q (if again
              then anim_confused (framesRetrig run (drawEyes p0 (anim_confused s)).1)
              else framesRetrig run (drawEyes p0 (anim_confused s)).1)).1.confused = false
            ∧ (drawEyes q (if again
              then anim_confused (framesRetrig run (drawEyes p0 (anim_confused s)).1)
              else framesRetrig run (drawEyes p0 (anim_confused s)).1)).1.confusedToggle
                = true)) := by
  have _ := hc
  have k := drawEyes_confusion_start p0 s htog hd
  refine ⟨⟨k.1, k.2.1, k.2.2.1⟩, ?_⟩
  intro hw
  have hu : u32 ((p0.millis : Int) + 500) = p0.millis + 500 := by
    have := u32_of_lt ((p0.millis : Int) + 500) (by omega) (by omega)
    omega
  refine ⟨?_, ?_⟩
  · intro run hall
    have m := framesRetrig_confusion_running p0.millis run _ k
      (fun e he => by rw [hu]; exact hall e he)
    exact ⟨m.1, m.2.1, m.2.2.1⟩
  · intro run again q hall hq
    have m := framesRetrig_confusion_running p0.millis run _ k
      (fun e he => by rw [hu]; exact hall e he)
    exact drawEyes_confusion_end q again p0.millis _ m (by rw [hu]; exact hq)

/-- The start of a burst at the constructor state with a first pass at clock
time 1000. -/
theorem confusion_burst_duration_witness :
    (drawEyes (portAt 1000) (anim_confused (init true))).1.hFlicker = true
      ∧ (drawEyes (portAt 1000) (anim_confused (init true))).1.confused = true
      ∧ (drawEyes (portAt 1000) (anim_confused (init true))).1.confusedAnimationTimer
          = (portAt 1000).millis :=
  (confusion_burst_duration (init true) (portAt 1000) rfl rfl rfl).1

/-- C3 fails in the code at the wrap of the 32-bit clock.  On the constructor
state (`confused = false`, `confusedToggle = true`, burst duration 500 ms),
after `anim_confused()` the first pass at `t0 = 2^32 - 96` enables horizontal
flicker and records `t0`; the end time `confusedAnimationTimer +
confusedAnimationDuration` wraps to 404, so the pass 50 ms later, at a time
below `t0 + 500`, already disables flicker, clears the confused flag and
re-arms the toggle. -/
theorem confusion_burst_cut_short_at_clock_wrap :
    Reachable (anim_confused (init true))
      ∧ (init true).confused = false ∧ (init true).confusedToggle = true
      ∧ (init true).confusedAnimationDuration = 500
      ∧ (portAt 4294967250).millis < (portAt 4294967200).millis + 500
      ∧ (drawEyes (portAt 4294967200) (anim_confused (init true))).1.hFlicker = true
      ∧ (drawEyes (portAt 4294967200) (anim_confused (init true))).1.confusedAnimationTimer
          = 4294967200
      ∧ u32 (4294967200 + 500) = 404
      ∧ (drawEyes (portAt 4294967250)
          (drawEyes (portAt 4294967200) (anim_confused (init true))).1).1.hFlicker = false
      ∧ (drawEyes (portAt 4294967250)
          (drawEyes (portAt 4294967200) (anim_confused (init true))).1).1.confused = false
      ∧ (drawEyes (portAt 4294967250)
          (drawEyes (portAt 4294967200) (anim_confused (init true))).1).1.confusedToggle
            = true := by
  refine ⟨Reachable.call Op.anim_confused (init true) _ (Reachable.start true) rfl,
    rfl, rfl, rfl, by decide, ?_, ?_, ?_, ?_, ?_, ?_⟩ <;> decide

/-! ## Position anchors (C4) -/

/-- One halving step never increases the distance to the target, and brings a
distance of 2 or more strictly down; a distance of at most 1 stays so. -/
theorem halve_natAbs (c t : Int) :
    (cdiv (c + t) 2 - t).natAbs ≤ ((c - t).natAbs + 1) / 2 := by
  have h := cdiv_two_cases (c + t)
  omega

/-- The vertical step of a pass: the eye is first moved by half of what the
height still lacks, then halved toward its target. -/
theorem vertical_step (y ty D h1 : Int) :
    (cdiv (y + cdiv (D - h1) 2 + ty) 2 - ty).natAbs
      ≤ ((y - ty).natAbs + (h1 - D).natAbs / 2 + 1) / 2 := by
  have k1 := cdiv_two_cases (D - h1)
  have k2 := halve_natAbs (y + cdiv (D - h1) 2) ty
  generalize cdiv (y + cdiv (D - h1) 2 + ty) 2 = y1 at k2 ⊢
  generalize cdiv (D - h1) 2 = nudge at k1 k2
  omega

/-- One pass with every generator off and the left eye's target height at
its default: the flags and targets stay, and height and position are
smoothed. -/
theorem drawEyes_quiet (p : Port) (s : State) (hq : Quiet s)
    (ho : s.eyeLheightNext = s.eyeLheightDefault) :
    Quiet (drawEyes p s).1
      ∧ (drawEyes p s).1.eyeLheightNext = s.eyeLheightDefault
      ∧ (drawEyes p s).1.eyeLheightDefault = s.eyeLheightDefault
      ∧ (drawEyes p s).1.eyeLxNext = s.eyeLxNext
      ∧ (drawEyes p s).1.eyeLyNext = s.eyeLyNext
      ∧ (drawEyes p s).1.eyeLheightCurrent
          = cdiv (s.eyeLheightCurrent + s.eyeLheightDefault) 2
      ∧ (drawEyes p s).1.eyeLx = cdiv (s.eyeLx + s.eyeLxNext) 2
      ∧ (drawEyes p s).1.eyeLy
          = cdiv (s.eyeLy
              + cdiv (s.eyeLheightDefault
                  - cdiv (s.eyeLheightCurrent + s.eyeLheightDefault) 2) 2
              + s.eyeLyNext) 2 := by
  obtain ⟨h1, h2, h3, h4, h5, h6, h7⟩ := hq
  simp only [drawEyes, beforeIdle, moodTargets_eq, cyclopsStep_eq, vFlickerStep_eq,
    hFlickerStep_eq, idleStep_eq, confusedStep_eq, laughStep_eq, autoblinkStep_eq,
    smoothGeometry_eq, smoothHeights_eq, curiosityOffsets_eq, blinkStarts, holdEnds, idleFires,
    Quiet]
  simp [h1, h2, h3, h4, h5, h6, h7, ho, cdiv]

/-- Over a run of quiet passes the targets stay, the horizontal distance to the
target is at most 1 or has gone down by the number of passes, and likewise for
the vertical distance weighed together with the distance of the height to
its default. -/
theorem frames_quiet (ps : List Port) :
    ∀ s : State, Quiet s → s.eyeLheightNext = s.eyeLheightDefault →
      (frames ps s).eyeLxNext = s.eyeLxNext ∧ (frames ps s).eyeLyNext = s.eyeLyNext
        ∧ (((frames ps s).eyeLx - s.eyeLxNext).natAbs ≤ 1
            ∨ ((frames ps s).eyeLx - s.eyeLxNext).natAbs + ps.length
                ≤ (s.eyeLx - s.eyeLxNext).natAbs)
        ∧ ((((frames ps s).eyeLy - s.eyeLyNext).natAbs ≤ 1
              ∧ ((frames ps s).eyeLheightCurrent - s.eyeLheightDefault).natAbs ≤ 1)
            ∨ ((frames ps s).eyeLy - s.eyeLyNext).natAbs
                + 2 * ((frames ps s).eyeLheightCurrent - s.eyeLheightDefault).natAbs
                + ps.length
                ≤ (s.eyeLy - s.eyeLyNext).natAbs
                  + 2 * (s.eyeLheightCurrent - s.eyeLheightDefault).natAbs)
        ∧ ((s.eyeLy - s.eyeLyNext).natAbs ≤ 1
            ∧ (s.eyeLheightCurrent - s.eyeLheightDefault).natAbs ≤ 1 →
          ((frames ps s).eyeLy - s.eyeLyNext).natAbs ≤ 1
            ∧ ((frames ps s).eyeLheightCurrent - s.eyeLheightDefault).natAbs ≤ 1) := by
  induction ps with
  | nil => intro s _ _; simp [frames]
  | cons p ps ih =>
    intro s hq ho
    obtain ⟨q1, e1, e2, e3, e4, e5, e6, e7⟩ := drawEyes_quiet p s hq ho
    obtain ⟨i1, i2, i3, i4, i5⟩ := ih (drawEyes p s).1 q1 (by rw [e1, e2])
    simp only [frames, List.length_cons]
    rw [e3] at i1 i3
    rw [e4] at i2 i4 i5
    rw [e2, e5, e7] at i4 i5
    rw [e6] at i3
    have a1 := halve_natAbs s.eyeLx s.eyeLxNext
    have a2 := halve_natAbs s.eyeLheightCurrent s.eyeLheightDefault
    have a3 := vertical_step s.eyeLy s.eyeLyNext s.eyeLheightDefault
      (cdiv (s.eyeLheightCurrent + s.eyeLheightDefault) 2)
    clear e1 e2 e3 e4 e5 e6 e7 q1 ih
    generalize frames ps (drawEyes p s).1 = t at i1 i2 i3 i4 i5 ⊢
    generalize (cdiv (s.eyeLy + cdiv (s.eyeLheightDefault
      - cdiv (s.eyeLheightCurrent + s.eyeLheightDefault) 2) 2 + s.eyeLyNext) 2
        - s.eyeLyNext).natAbs = A1 at i4 i5 a3
    generalize (cdiv (s.eyeLheightCurrent + s.eyeLheightDefault) 2
      - s.eyeLheightDefault).natAbs = H1 at i4 i5 a2 a3
    generalize (cdiv (s.eyeLx + s.eyeLxNext) 2 - s.eyeLxNext).natAbs = B1 at i3 a1
    generalize (s.eyeLx - s.eyeLxNext).natAbs = B0 at a1 ⊢
    generalize (s.eyeLy - s.eyeLyNext).natAbs = A0 at a3 ⊢
    generalize (s.eyeLheightCurrent - s.eyeLheightDefault).natAbs = H0 at a2 ⊢
    generalize (t.eyeLx - s.eyeLxNext).natAbs = Bt at i3 ⊢
    generalize (t.eyeLy - s.eyeLyNext).natAbs = At at i4 i5 ⊢
    generalize (t.eyeLheightCurrent - s.eyeLheightDefault).natAbs = Ht at i4 i5 ⊢
    refine ⟨i1, i2, ?_, ?_, ?_⟩
    · omega
    · omega
    · omega

/-- `setPosition` writes the two position targets only. -/
theorem setPosition_frame (position : Nat) (s : State) :
    ∃ x y : Int, setPosition position s = { s with eyeLxNext := x, eyeLyNext := y } := by
  unfold setPosition
  by_cases h1 : position = N
  · rw [if_pos h1]; exact ⟨_, _, rfl⟩
  rw [if_neg h1]
  by_cases h2 : position = NE
  · rw [if_pos h2]; exact ⟨_, _, rfl⟩
  rw [if_neg h2]
  by_cases h3 : position = E
  · rw [if_pos h3]; exact ⟨_, _, rfl⟩
  rw [if_neg h3]
  by_cases h4 : position = SE
  · rw [if_pos h4]; exact ⟨_, _, rfl⟩
  rw [if_neg h4]
  by_cases h5 : position = S
  · rw [if_pos h5]; exact ⟨_, _, rfl⟩
  rw [if_neg h5]
  by_cases h6 : position = SW
  · rw [if_pos h6]; exact ⟨_, _, rfl⟩
  rw [if_neg h6]
  by_cases h7 : position = W
  · rw [if_pos h7]; exact ⟨_, _, rfl⟩
  rw [if_neg h7]
  by_cases h8 : position = NW
  · rw [if_pos h8]; exact ⟨_, _, rfl⟩
  rw [if_neg h8]
  exact ⟨_, _, rfl⟩

/-- `setPosition` leaves the generators off and the height target in place. -/
theorem setPosition_quiet (position : Nat) (s : State) (hq : Quiet s)
    (ho : s.eyeLheightNext = s.eyeLheightDefault) :
    Quiet (setPosition position s)
      ∧ (setPosition position s).eyeLheightNext = (setPosition position s).eyeLheightDefault := by
  obtain ⟨x, y, h⟩ := setPosition_frame position s
  rw [h]
  exact ⟨hq, ho⟩

/-- C4: with every generator off and the left eye open (its target height is
the default height), after `setPosition(p)`, for any position code `p`, there
is a number of passes `N` such that after every run of `N` or more passes of
`drawEyes` the target is still the one set by `setPosition` and the left eye's
current position differs from it by at most 1 pixel on each axis. -/
theorem position_anchor_convergence (s : State) (position : Nat) (hq : Quiet s)
    (ho : s.eyeLheightNext = s.eyeLheightDefault) :
    ∃ N : Nat, ∀ ps : List Port, N ≤ ps.length →
      (frames ps (setPosition position s)).eyeLxNext = (setPosition position s).eyeLxNext
        ∧ (frames ps (setPosition position s)).eyeLyNext = (setPosition position s).eyeLyNext
        ∧ |(frames ps (setPosition position s)).eyeLx - (setPosition position s).eyeLxNext| ≤ 1
        ∧ |(frames ps (setPosition position s)).eyeLy - (setPosition position s).eyeLyNext| ≤ 1 := by
  obtain ⟨q1, o1⟩ := setPosition_quiet position s hq ho
  refine ⟨((setPosition position s).eyeLx - (setPosition position s).eyeLxNext).natAbs
    + ((setPosition position s).eyeLy - (setPosition position s).eyeLyNext).natAbs
    + 2 * ((setPosition position s).eyeLheightCurrent
        - (setPosition position s).eyeLheightDefault).natAbs, ?_⟩
  intro ps hlen
  obtain ⟨i1, i2, i3, i4, _⟩ := frames_quiet ps (setPosition position s) q1 o1
  refine ⟨i1, i2, ?_, ?_⟩
  · rw [abs_le]; omega
  · rw [abs_le]; omega

/-- Witness for C4: the constructor state and the anchor NE. -/
theorem position_anchor_convergence_witness :
    ∃ N : Nat, ∀ ps : List Port, N ≤ ps.length →
      (frames ps (setPosition NE (init true))).eyeLxNext = (setPosition NE (init true)).eyeLxNext
        ∧ (frames ps (setPosition NE (init true))).eyeLyNext
            = (setPosition NE (init true)).eyeLyNext
        ∧ |(frames ps (setPosition NE (init true))).eyeLx
            - (setPosition NE (init true)).eyeLxNext| ≤ 1
        ∧ |(frames ps (setPosition NE (init true))).eyeLy
            - (setPosition NE (init true)).eyeLyNext| ≤ 1 :=
  position_anchor_convergence (init true) NE ⟨rfl, rfl, rfl, rfl, rfl, rfl, rfl⟩ rfl

/-! ## Idle bounds (C5) -/

/-- The blocks before the idle generator do not write its flag or timer, so
whether it fires is decided by the state at the start of the pass. -/
theorem beforeIdle_idleFires (p : Port) (s : State) :
    idleFires p (beforeIdle p s) ↔ idleFires p s := by
  simp only [idleFires, beforeIdle, confusedStep_eq, laughStep_eq, autoblinkStep_eq,
    smoothGeometry_eq, smoothHeights_eq, curiosityOffsets_eq]

/-- The left eye's target after a pass in which the idle generator fires is
what the random source returned for the travel constraints of that moment. -/
theorem drawEyes_idle_target (p : Port) (s : State) (hf : idleFires p s) :
    (drawEyes p s).1.eyeLxNext = p.randomIdleX (getScreenConstraint_X (beforeIdle p s))
      ∧ (drawEyes p s).1.eyeLyNext
          = p.randomIdleY (getScreenConstraint_Y (beforeIdle p s)) := by
  have h := (beforeIdle_idleFires p s).mpr hf
  simp only [drawEyes, moodTargets_eq, cyclopsStep_eq, vFlickerStep_eq, hFlickerStep_eq,
    idleStep_eq, if_pos h]
  exact ⟨trivial, trivial⟩

/-- A value of the random source for a non-negative bound lies between 0 and
the bound. -/
theorem RandomOk.bounds {r : Int → Int} (h : RandomOk r) (b : Int) (hb : 0 ≤ b) :
    0 ≤ r b ∧ r b ≤ b := by
  rcases eq_or_lt_of_le hb with h0 | h0
  · rw [← h0, h.1]; exact ⟨le_refl _, le_refl _⟩
  · have := h.2 b h0
    omega

/-- C5: whenever the idle generator fires in a pass, with a random source that
returns a value in `[0, bound)` (and 0 for bound 0) and with non-negative
travel constraints `cx`, `cy` at that moment, the newly assigned left-eye
target is the random value for those constraints and satisfies
`0 <= eyeLxNext <= cx` and `0 <= eyeLyNext <= cy`. -/
theorem idle_target_within_constraints (p : Port) (s : State) (hf : idleFires p s)
    (hx : RandomOk p.randomIdleX) (hy : RandomOk p.randomIdleY)
    (hcx : 0 ≤ getScreenConstraint_X (beforeIdle p s))
    (hcy : 0 ≤ getScreenConstraint_Y (beforeIdle p s)) :
    (drawEyes p s).1.eyeLxNext = p.randomIdleX (getScreenConstraint_X (beforeIdle p s))
      ∧ (drawEyes p s).1.eyeLyNext = p.randomIdleY (getScreenConstraint_Y (beforeIdle p s))
      ∧ 0 ≤ (drawEyes p s).1.eyeLxNext
      ∧ (drawEyes p s).1.eyeLxNext ≤ getScreenConstraint_X (beforeIdle p s)
      ∧ 0 ≤ (drawEyes p s).1.eyeLyNext
      ∧ (drawEyes p s).1.eyeLyNext ≤ getScreenConstraint_Y (beforeIdle p s) := by
  obtain ⟨e1, e2⟩ := drawEyes_idle_target p s hf
  have b1 := hx.bounds _ hcx
  have b2 := hy.bounds _ hcy
  rw [e1, e2]
  exact ⟨rfl, rfl, b1.1, b1.2, b2.1, b2.2⟩

/-- The random source that always returns half of the bound meets the
contract. -/
theorem randomOk_half : RandomOk (fun b => b / 2) := by
  refine ⟨by decide, fun b hb => ?_⟩
  dsimp only
  constructor <;> omega

/-- Witness for C5: the constructor state with idle mode on, a pass at clock
time 0 and a random source returning half of its bound: the constraints are
53 and 204 and the new target is (26, 102). -/
theorem idle_target_within_constraints_witness :
    (drawEyes { portAt 0 with randomIdleX := fun b => b / 2, randomIdleY := fun b => b / 2 }
        idleDueState).1.eyeLxNext = 26
      ∧ (drawEyes { portAt 0 with randomIdleX := fun b => b / 2, randomIdleY := fun b => b / 2 }
        idleDueState).1.eyeLyNext = 102 := by
  have h := idle_target_within_constraints
    { portAt 0 with randomIdleX := fun b => b / 2, randomIdleY := fun b => b / 2 } idleDueState
    ⟨rfl, by decide⟩ randomOk_half randomOk_half (by decide) (by decide)
  exact ⟨h.1.trans (by decide), h.2.1.trans (by decide)⟩

/-! ## Cyclops masking (C6) -/

/-- C6: for every state with `cyclops = true`, after one pass of `drawEyes` the
right eye's current width and height and the current spacing are all 0, and
the pass draws exactly one eye shape: after the clear, one rounded rectangle
in the main colour with the left eye's geometry; every other call draws an
eyelid mask in the background colour (four half-width triangles and the
happy-lid rectangle of the left eye). -/
theorem cyclops_masking (p : Port) (s : State) (hc : s.cyclops = true) :
    (drawEyes p s).1.eyeRwidthCurrent = 0
      ∧ (drawEyes p s).1.eyeRheightCurrent = 0
      ∧ (drawEyes p s).1.spaceBetweenCurrent = 0
      ∧ (drawEyes p s).2 =
        [ DrawOp.fillSprite (drawEyes p s).1.bgColor,
          DrawOp.fillRoundRect (drawEyes p s).1.eyeLx (drawEyes p s).1.eyeLy
            (drawEyes p s).1.eyeLwidthCurrent (drawEyes p s).1.eyeLheightCurrent
            (drawEyes p s).1.eyeLborderRadiusCurrent (drawEyes p s).1.mainColor,
          DrawOp.fillTriangle (drawEyes p s).1.eyeLx ((drawEyes p s).1.eyeLy - 1)
            ((drawEyes p s).1.eyeLx + cdiv (drawEyes p s).1.eyeLwidthCurrent 2)
            ((drawEyes p s).1.eyeLy - 1) (drawEyes p s).1.eyeLx
            ((drawEyes p s).1.eyeLy + (drawEyes p s).1.eyelidsTiredHeight - 1)
            (drawEyes p s).1.bgColor,
          DrawOp.fillTriangle
            ((drawEyes p s).1.eyeLx + cdiv (drawEyes p s).1.eyeLwidthCurrent 2)
            ((drawEyes p s).1.eyeLy - 1)
            ((drawEyes p s).1.eyeLx + (drawEyes p s).1.eyeLwidthCurrent)
            ((drawEyes p s).1.eyeLy - 1)
            ((drawEyes p s).1.eyeLx + (drawEyes p s).1.eyeLwidthCurrent)
            ((drawEyes p s).1.eyeLy + (drawEyes p s).1.eyelidsTiredHeight - 1)
            (drawEyes p s).1.bgColor,
          DrawOp.fillTriangle (drawEyes p s).1.eyeLx ((drawEyes p s).1.eyeLy - 1)
            ((drawEyes p s).1.eyeLx + cdiv (drawEyes p s).1.eyeLwidthCurrent 2)
            ((drawEyes p s).1.eyeLy - 1)
            ((drawEyes p s).1.eyeLx + cdiv (drawEyes p s).1.eyeLwidthCurrent 2)
            ((drawEyes p s).1.eyeLy + (drawEyes p s).1.eyelidsAngryHeight - 1)
            (drawEyes p s).1.bgColor,
          DrawOp.fillTriangle
            ((drawEyes p s).1.eyeLx + cdiv (drawEyes p s).1.eyeLwidthCurrent 2)
            ((drawEyes p s).1.eyeLy - 1)
            ((drawEyes p s).1.eyeLx + (drawEyes p s).1.eyeLwidthCurrent)
            ((drawEyes p s).1.eyeLy - 1)
            ((drawEyes p s).1.eyeLx + (drawEyes p s).1.eyeLwidthCurrent)
            ((drawEyes p s).1.eyeLy + (drawEyes p s).1.eyelidsAngryHeight - 1)
            (drawEyes p s).1.bgColor,
          DrawOp.fillRoundRect ((drawEyes p s).1.eyeLx - 1)
            (((drawEyes p s).1.eyeLy + (drawEyes p s).1.eyeLheightCurrent)
              - (drawEyes p s).1.eyelidsHappyBottomOffset + 1)
            ((drawEyes p s).1.eyeLwidthCurrent + 2) (drawEyes p s).1.eyeLheightDefault
            (drawEyes p s).1.eyeLborderRadiusCurrent (drawEyes p s).1.bgColor ] := by
  simp only [drawEyes, beforeIdle, eyeShapes, tiredLids, angryLids, happyLids, moodTargets_eq,
    cyclopsStep_eq, vFlickerStep_eq, hFlickerStep_eq, idleStep_eq, confusedStep_eq,
    laughStep_eq, autoblinkStep_eq, smoothGeometry_eq, smoothHeights_eq, curiosityOffsets_eq]
  simp [hc]

/-- Witness for C6: the constructor state in cyclops mode. -/
theorem cyclops_masking_witness :
    (drawEyes (portAt 0) cyclopsState).1.eyeRwidthCurrent = 0
      ∧ (drawEyes (portAt 0) cyclopsState).1.eyeRheightCurrent = 0
      ∧ (drawEyes (portAt 0) cyclopsState).1.spaceBetweenCurrent = 0 :=
  ⟨(cyclops_masking (portAt 0) cyclopsState rfl).1,
    (cyclops_masking (portAt 0) cyclopsState rfl).2.1,
    (cyclops_masking (portAt 0) cyclopsState rfl).2.2.1⟩

/-! ## Frame rate (C7) -/

/-- C7, as amended: for every frame rate from 1 to 255, `setFramerate(fps)` and
`begin(fps)` are defined and set `frameInterval` to `1000 / fps`, which is
`1000 / max(fps, 1)`, with truncating division; `begin` also creates and
clears the sprite and sets both current heights to 1. -/
theorem setFramerate_interval (fps : Nat) (s : State) (h1 : 1 ≤ fps) (h2 : fps ≤ 255) :
    setFramerate fps s = some { s with frameInterval := ((1000 / max fps 1 : Nat) : Int) }
      ∧ begin fps s
          = some ({ s with eyeLheightCurrent := 1, eyeRheightCurrent := 1,
                           frameInterval := ((1000 / max fps 1 : Nat) : Int) },
                  [DrawOp.createSprite s.screenWidth s.screenHeight,
                   DrawOp.fillSprite s.bgColor]) := by
  have _ := h2
  have hne : ¬ ((fps : Int) = 0) := by omega
  have hm : max fps 1 = fps := by omega
  have hc : cdiv 1000 fps = ((1000 / fps : Nat) : Int) := by
    unfold cdiv
    rw [Int.tdiv_eq_ediv (by decide) (by omega)]
    norm_cast
  simp only [begin, setFramerate, cdivChecked, if_neg hne, hc, hm]
  exact ⟨trivial, trivial⟩

/-- Witness for C7 as amended: 50 frames per second give an interval of 20 ms. -/
theorem setFramerate_interval_witness :
    setFramerate 50 (init true)
      = some { init true with frameInterval := ((1000 / max 50 1 : Nat) : Int) } :=
  (setFramerate_interval 50 (init true) (by decide) (by decide)).1

/-- C7 as stated fails for frame rate 0: the code has no clamp, the interval is
`1000 / 0`, and neither `setFramerate(0)` nor `begin(0)` yields a state (in
particular not one with an interval of 1000 ms). -/
theorem setFramerate_zero_undefined :
    setFramerate 0 (init true) = none ∧ begin 0 (init true) = none :=
  ⟨rfl, rfl⟩

/-! ## The scheduler gate (C8) -/

/-- The gate for a state whose `frameInterval` is non-negative and below
`2^32`: at every clock value `now`, if `(now - fpsTimer) mod 2^32 <
frameInterval` then `update()` leaves the state unchanged and makes no call on
the sprite; otherwise it performs exactly one pass of `drawEyes`, followed by
one push of the sprite, and stores the clock value read after that into
`fpsTimer`. -/
theorem update_gate (now : Nat) (p : Port) (after : Nat) (s : State)
    (h0 : 0 ≤ s.frameInterval) (h1 : s.frameInterval < 4294967296) :
    (((now : Int) - s.fpsTimer) % 4294967296 < s.frameInterval →
        update now p after s = (s, []))
      ∧ (¬ (((now : Int) - s.fpsTimer) % 4294967296 < s.frameInterval) →
        update now p after s
          = ({ (drawEyes p s).1 with fpsTimer := after },
             (drawEyes p s).2 ++ [DrawOp.pushSprite 0 0])) := by
  have e1 : (u32 ((now : Int) - s.fpsTimer) : Int) = ((now : Int) - s.fpsTimer) % 4294967296 := by
    unfold u32; omega
  have e2 : (u32 s.frameInterval : Int) = s.frameInterval := u32_of_lt _ h0 h1
  constructor
  · intro h
    have hlt : ¬ (u32 ((now : Int) - s.fpsTimer) ≥ u32 s.frameInterval) := by omega
    simp only [update, if_neg hlt]
  · intro h
    have hge : u32 ((now : Int) - s.fpsTimer) ≥ u32 s.frameInterval := by omega
    simp only [update, if_pos hge]

/-- The bound on `frameInterval` is needed: the comparison of `update()` is
unsigned, so an interval of `-1`, which no public operation stores, counts as
`2^32 - 1`; at clock value 5 with timer 0 the condition `(now - fpsTimer) mod
2^32 < frameInterval` is false, yet `update()` does nothing. -/
theorem update_gate_negative_interval :
    ¬ (((5 : Nat) : Int) - negativeIntervalState.fpsTimer) % 4294967296
        < negativeIntervalState.frameInterval
      ∧ update 5 (portAt 5) 5 negativeIntervalState = (negativeIntervalState, []) :=
  ⟨by decide, rfl⟩

/-! ## Per-eye open and close (C10) -/

/-- C10: `close(left, right)` sets, for each flagged eye, target height 1,
target border radius 0 and the open flag false; `open(left, right)` sets, for
each flagged eye, target height and border radius to that eye's defaults and
the open flag true; every other field, of an unflagged eye or of the rest of
the state, is unchanged; and `close()` / `open()` are `close(true, true)` /
`open(true, true)`. -/
theorem open_close_per_eye (left right : Bool) (s : State) :
    closeLR left right s
        = { s with
            eyeLheightNext := if left then 1 else s.eyeLheightNext
            eyeLborderRadiusNext := if left then 0 else s.eyeLborderRadiusNext
            eyeL_open := if left then false else s.eyeL_open
            eyeRheightNext := if right then 1 else s.eyeRheightNext
            eyeRborderRadiusNext := if right then 0 else s.eyeRborderRadiusNext
            eyeR_open := if right then false else s.eyeR_open }
      ∧ openLR left right s
        = { s with
            eyeLheightNext := if left then s.eyeLheightDefault else s.eyeLheightNext
            eyeLborderRadiusNext :=
              if left then s.eyeLborderRadiusDefault else s.eyeLborderRadiusNext
            eyeL_open := if left then true else s.eyeL_open
            eyeRheightNext := if right then s.eyeRheightDefault else s.eyeRheightNext
            eyeRborderRadiusNext :=
              if right then s.eyeRborderRadiusDefault else s.eyeRborderRadiusNext
            eyeR_open := if right then true else s.eyeR_open }
      ∧ close s = closeLR true true s
      ∧ openEyes s = openLR true true s := by
  cases left <;> cases right <;> exact ⟨rfl, rfl, rfl, rfl⟩

/-! ## Smoothing from below never arrives (C9) -/

/-- A property kept by every pass is kept by every run of passes. -/
theorem frames_induct (I : State → Prop) (h : ∀ (p : Port) (s : State), I s → I (drawEyes p s).1)
    (ps : List Port) : ∀ s : State, I s → I (frames ps s) := by
  induction ps with
  | nil => intro s hs; exact hs
  | cons p ps ih => intro s hs; exact ih _ (h p s hs)

/-- A pass smooths widths and spacing whatever the generators do; cyclops mode
zeroes the right eye's width and the spacing afterwards. -/
theorem drawEyes_sizes (p : Port) (s : State) :
    (drawEyes p s).1.eyeLwidthNext = s.eyeLwidthNext
      ∧ (drawEyes p s).1.eyeRwidthNext = s.eyeRwidthNext
      ∧ (drawEyes p s).1.spaceBetweenNext = s.spaceBetweenNext
      ∧ (drawEyes p s).1.eyeLwidthCurrent = cdiv (s.eyeLwidthCurrent + s.eyeLwidthNext) 2
      ∧ (drawEyes p s).1.eyeRwidthCurrent
          = (if s.cyclops then 0 else cdiv (s.eyeRwidthCurrent + s.eyeRwidthNext) 2)
      ∧ (drawEyes p s).1.spaceBetweenCurrent
          = (if s.cyclops then 0 else cdiv (s.spaceBetweenCurrent + s.spaceBetweenNext) 2) := by
  simp only [drawEyes, beforeIdle, moodTargets_eq, cyclopsStep_eq, vFlickerStep_eq,
    hFlickerStep_eq, idleStep_eq, confusedStep_eq, laughStep_eq, autoblinkStep_eq,
    smoothGeometry_eq, smoothHeights_eq, curiosityOffsets_eq]
  simp

/-- The blocks before the autoblinker do not write what decides whether a blink
starts, nor the interval and its variation. -/
theorem drawEyes_blinktimer (p : Port) (s : State) (h : blinkStarts p s) :
    (drawEyes p s).1.blinktimer
      = u32 (p.millis + s.blinkInterval * 1000
          + p.randomBlink s.blinkIntervalVariation * 1000) := by
  have h' : blinkStarts p (smoothGeometry (smoothHeights (curiosityOffsets s))) := by
    simp only [blinkStarts, smoothGeometry_eq, smoothHeights_eq, curiosityOffsets_eq] at h ⊢
    exact h
  simp only [drawEyes, beforeIdle, moodTargets_eq, cyclopsStep_eq, vFlickerStep_eq,
    hFlickerStep_eq, idleStep_eq, confusedStep_eq, laughStep_eq, autoblinkStep_eq, if_pos h']
  simp only [smoothGeometry_eq, smoothHeights_eq, curiosityOffsets_eq]

/-- C11, as amended: `setAutoblinker(active, interval, variation)` called at
clock time `now`, and a blink firing in a pass at time `now`, both set the
next-blink timestamp to `(now + interval*1000 + j*1000) mod 2^32`, where `j`
is the value of the random source for the bound `variation`, whatever the
arguments, the clock and the random source are; `setAutoblinker` also clears
`blinkingActive`.  When the random source keeps to its range (0 for the bound
0, a value in `[0, bound)` for a positive bound), `interval >= 0`,
`variation >= 0` and `now + (interval + variation)*1000 < 2^32`, the
timestamp is the sum itself: for `variation > 0` it lies in
`[now + interval*1000, now + (interval + variation)*1000)`, and for
`variation = 0` it is exactly `now + interval*1000`. -/
theorem autoblink_schedule (s : State) (p : Port) (active : Bool) (interval variation : Int) :
    ((setAutoblinker p.millis p.randomBlink active interval variation s).blinktimer
        = u32 (p.millis + interval * 1000 + p.randomBlink variation * 1000)
      ∧ (setAutoblinker p.millis p.randomBlink active interval variation s).blinkingActive
          = false
      ∧ (setAutoblinker p.millis p.randomBlink active interval variation s).autoblinker
          = active)
    ∧ (blinkStarts p s → s.blinkInterval = interval → s.blinkIntervalVariation = variation →
        (drawEyes p s).1.blinktimer
          = u32 (p.millis + interval * 1000 + p.randomBlink variation * 1000))
    ∧ ((u32 (p.millis + interval * 1000 + p.randomBlink variation * 1000) : Int)
        = (p.millis + interval * 1000 + p.randomBlink variation * 1000) % 4294967296)
    ∧ (RandomOk p.randomBlink → 0 ≤ interval → 0 ≤ variation →
        p.millis + (interval + variation) * 1000 < 4294967296 →
        ((u32 (p.millis + interval * 1000 + p.randomBlink variation * 1000) : Int)
            = p.millis + interval * 1000 + p.randomBlink variation * 1000)
          ∧ (0 < variation →
            (p.millis : Int) + interval * 1000
                ≤ u32 (p.millis + interval * 1000 + p.randomBlink variation * 1000)
              ∧ (u32 (p.millis + interval * 1000 + p.randomBlink variation * 1000) : Int)
                < p.millis + (interval + variation) * 1000)
          ∧ (variation = 0 →
            (u32 (p.millis + interval * 1000 + p.randomBlink variation * 1000) : Int)
              = p.millis + interval * 1000)) := by
  refine ⟨⟨rfl, rfl, rfl⟩, ?_, ?_, ?_⟩
  · intro hs h1 h2
    rw [drawEyes_blinktimer p s hs, h1, h2]
  · unfold u32
    omega
  · intro hr hi hv hw
    have hb := hr.bounds variation hv
    have hj : variation = 0 → p.randomBlink variation = 0 := fun h => by rw [h]; exact hr.1
    have hlt : 0 < variation → p.randomBlink variation < variation := fun h => (hr.2 _ h).2
    have hu := u32_of_lt (p.millis + interval * 1000 + p.randomBlink variation * 1000)
      (by omega) (by omega)
    refine ⟨hu, ?_, ?_⟩
    · intro h
      have := hlt h
      omega
    · intro h
      have := hj h
      omega

/-- Witness for C11 as amended: the constructor state with the autoblinker due,
at clock time 1000 with a random source that returns half of its bound, for
an interval of 1 s and a variation of 4 s: the next blink is at 4000, which
lies in `[2000, 6000)`. -/
theorem autoblink_schedule_witness :
    (setAutoblinker 1000 (fun b => b / 2) true 1 4 blinkDueState).blinktimer = 4000
      ∧ (drawEyes { portAt 1000 with randomBlink := fun b => b / 2 } blinkDueState).1.blinktimer
          = 4000
      ∧ RandomOk (fun b : Int => b / 2)
      ∧ (1000 : Int) + 1 * 1000 ≤ u32 (1000 + 1 * 1000 + 4 / 2 * 1000)
      ∧ (u32 (1000 + 1 * 1000 + 4 / 2 * 1000) : Int) < 1000 + (1 + 4) * 1000 := by
  have h := autoblink_schedule blinkDueState { portAt 1000 with randomBlink := fun b => b / 2 }
    true 1 4
  have k := (h.2.2.2 randomOk_half (by decide) (by decide) (by decide)).2.1 (by decide)
  exact ⟨h.1.1.trans (by decide), (h.2.1 (by decide) rfl rfl).trans (by decide),
    randomOk_half, k.1, k.2⟩

/-- C11 as stated fails when the sum exceeds the range of the clock:
`setAutoblinker(true, 1, 4)` at `now = 4294967000` with the random source
returning 0 sets the next blink to 704, which is not in
`[now + 1000, now + 5000)`. -/
theorem autoblink_schedule_wraps :
    (setAutoblinker 4294967000 (fun _ => 0) true 1 4 (init true)).blinktimer = 704
      ∧ ¬ ((4294967000 : Int) + 1 * 1000
          ≤ (setAutoblinker 4294967000 (fun _ => 0) true 1 4 (init true)).blinktimer) := by
  constructor <;> decide

/-! ## `setPosition` (C12) -/

/-- C12: for every state and every position code, `setPosition(p)` changes no
field other than `eyeLxNext` and `eyeLyNext` (in particular not the current
position), and sets them to the anchor for `p`: with `cx` and `cy` the travel
constraints, N (1) = `(cx/2, 0)`, NE (2) = `(cx, 0)`, E (3) = `(cx, cy/2)`,
SE (4) = `(cx, cy)`, S (5) = `(cx/2, cy)`, SW (6) = `(0, cy)`, W (7) =
`(0, cy/2)`, NW (8) = `(0, 0)`, and any other code =
`(eyeLxDefault, eyeLyDefault)`; the divisions truncate. -/
theorem setPosition_only_targets (position : Nat) (s : State) :
    setPosition position s
        = { s with
            eyeLxNext :=
              if position = 1 ∨ position = 5 then cdiv (getScreenConstraint_X s) 2
              else if position = 2 ∨ position = 3 ∨ position = 4 then getScreenConstraint_X s
              else if position = 6 ∨ position = 7 ∨ position = 8 then 0
              else s.eyeLxDefault
            eyeLyNext :=
              if position = 1 ∨ position = 2 ∨ position = 8 then 0
              else if position = 3 ∨ position = 7 then cdiv (getScreenConstraint_Y s) 2
              else if position = 4 ∨ position = 5 ∨ position = 6 then getScreenConstraint_Y s
              else s.eyeLyDefault }
      ∧ (setPosition position s).eyeLx = s.eyeLx
      ∧ (setPosition position s).eyeLy = s.eyeLy := by
  have key : setPosition position s
        = { s with
            eyeLxNext :=
              if position = 1 ∨ position = 5 then cdiv (getScreenConstraint_X s) 2
              else if position = 2 ∨ position = 3 ∨ position = 4 then getScreenConstraint_X s
              else if position = 6 ∨ position = 7 ∨ position = 8 then 0
              else s.eyeLxDefault
            eyeLyNext :=
              if position = 1 ∨ position = 2 ∨ position = 8 then 0
              else if position = 3 ∨ position = 7 then cdiv (getScreenConstraint_Y s) 2
              else if position = 4 ∨ position = 5 ∨ position = 6 then getScreenConstraint_Y s
              else s.eyeLyDefault } := by
    unfold setPosition N NE E SE S SW W NW
    by_cases h1 : position = 1
    · subst h1; rfl
    by_cases h2 : position = 2
    · subst h2; rfl
    by_cases h3 : position = 3
    · subst h3; rfl
    by_cases h4 : position = 4
    · subst h4; rfl
    by_cases h5 : position = 5
    · subst h5; rfl
    by_cases h6 : position = 6
    · subst h6; rfl
    by_cases h7 : position = 7
    · subst h7; rfl
    by_cases h8 : position = 8
    · subst h8; rfl
    simp only [if_neg h1, if_neg h2, if_neg h3, if_neg h4, if_neg h5, if_neg h6, if_neg h7,
      if_neg h8, h1, h2, h3, h4, h5, h6, h7, h8, or_self, if_false]
  refine ⟨key, ?_, ?_⟩
  · rw [key]
  · rw [key]

/-! ## Reachable states -/

/-- A property of the constructor states that every public operation keeps
holds in every reachable state. -/
theorem Reachable.induct (I : State → Prop) (h0 : ∀ portrait : Bool, I (init portrait))
    (hs : ∀ (op : Op) (s s' : State), I s → op.run s = some s' → I s') :
    ∀ s : State, Reachable s → I s := by
  intro s hr
  induction hr with
  | start portrait => exact h0 portrait
  | call op s s' _ hrun ih => exact hs op s s' ih hrun

/-- `setFramerate`, when it has a result, writes `frameInterval` only. -/
theorem setFramerate_frame (fps : Nat) (s s' : State) (h : setFramerate fps s = some s') :
    ∃ q : Int, s' = { s with frameInterval := q } := by
  unfold setFramerate at h
  split at h
  · exact absurd h (by simp)
  · exact ⟨_, (Option.some.inj h).symm⟩

/-- `begin`, when it has a result, writes the two current heights and
`frameInterval` only. -/
theorem begin_frame (frameRate : Nat) (s s' : State)
    (h : (begin frameRate s).map Prod.fst = some s') :
    ∃ q : Int, s' = { s with eyeLheightCurrent := 1, eyeRheightCurrent := 1,
                             frameInterval := q } := by
  unfold begin at h
  dsimp only at h
  split at h
  · exact absurd h (by simp)
  · rename_i s2 h2
    obtain ⟨q, hq⟩ := setFramerate_frame _ _ _ h2
    simp only [Option.map_some', Option.some.injEq] at h
    exact ⟨q, by rw [← h, hq]⟩

/-- `update` either leaves the state as it is or is a pass of `drawEyes`
followed by the store into `fpsTimer`. -/
theorem update_cases (now : Nat) (p : Port) (after : Nat) (s : State) :
    (update now p after s).1 = s
      ∨ (update now p after s).1 = { (drawEyes p s).1 with fpsTimer := after } := by
  unfold update
  split_ifs
  · exact Or.inr rfl
  · exact Or.inl rfl

/-! ## Mood exclusivity (C13) -/

/-- A pass of `drawEyes` does not write the mood flags. -/
theorem drawEyes_mood (p : Port) (s : State) :
    (drawEyes p s).1.tired = s.tired ∧ (drawEyes p s).1.angry = s.angry
      ∧ (drawEyes p s).1.happy = s.happy := by
  simp only [drawEyes, beforeIdle, moodTargets_eq, cyclopsStep_eq, vFlickerStep_eq,
    hFlickerStep_eq, idleStep_eq, confusedStep_eq, laughStep_eq, autoblinkStep_eq,
    smoothGeometry_eq, smoothHeights_eq, curiosityOffsets_eq]
  exact ⟨trivial, trivial, trivial⟩

/-- The flags after `setMood`. -/
theorem setMood_flags (mood : Nat) (s : State) :
    (setMood mood s).tired = decide (mood = 1)
      ∧ (setMood mood s).angry = decide (mood = 2)
      ∧ (setMood mood s).happy = decide (mood = 3) := by
  unfold setMood TIRED ANGRY HAPPY
  by_cases h1 : mood = 1
  · subst h1; exact ⟨rfl, rfl, rfl⟩
  by_cases h2 : mood = 2
  · subst h2; exact ⟨rfl, rfl, rfl⟩
  by_cases h3 : mood = 3
  · subst h3; exact ⟨rfl, rfl, rfl⟩
  rw [if_neg h1, if_neg h2, if_neg h3]
  simp [h1, h2, h3]

/-- Every public operation other than `setMood` leaves the mood flags as they
are. -/
theorem run_mood (op : Op) (s s' : State) (h : op.run s = some s')
    (hne : ∀ mood : Nat, op ≠ Op.setMood mood) :
    s'.tired = s.tired ∧ s'.angry = s.angry ∧ s'.happy = s.happy := by
  cases op
  case setMood mood => exact absurd rfl (hne mood)
  case begin frameRate =>
    obtain ⟨q, rfl⟩ := begin_frame frameRate s s' h
    exact ⟨rfl, rfl, rfl⟩
  case setFramerate fps =>
    obtain ⟨q, rfl⟩ := setFramerate_frame fps s s' h
    exact ⟨rfl, rfl, rfl⟩
  case update now p after =>
    obtain rfl := Option.some.inj h
    rcases update_cases now p after s with e | e <;> rw [e]
    · exact ⟨rfl, rfl, rfl⟩
    · exact drawEyes_mood p s
  case drawEyes p =>
    obtain rfl := Option.some.inj h
    exact drawEyes_mood p s
  case setPosition position =>
    obtain rfl := Option.some.inj h
    obtain ⟨x, y, e⟩ := setPosition_frame position s
    rw [e]
    exact ⟨rfl, rfl, rfl⟩
  case closeLR left right =>
    obtain rfl := Option.some.inj h
    cases left <;> cases right <;> exact ⟨rfl, rfl, rfl⟩
  case openLR left right =>
    obtain rfl := Option.some.inj h
    cases left <;> cases right <;> exact ⟨rfl, rfl, rfl⟩
  all_goals
    obtain rfl := Option.some.inj h
    exact ⟨rfl, rfl, rfl⟩

/-- C13: for every mood code `m`, after `setMood(m)` `tired` holds iff
`m = 1`, `angry` iff `m = 2`, `happy` iff `m = 3`, so at most one of the three
is set; no other public operation, nor a pass of `drawEyes`, writes these
flags; and in every state reachable from the constructor at most one mood
flag is set. -/
theorem mood_exclusive :
    (∀ (mood : Nat) (s : State),
        ((setMood mood s).tired = true ↔ mood = 1)
          ∧ ((setMood mood s).angry = true ↔ mood = 2)
          ∧ ((setMood mood s).happy = true ↔ mood = 3)
          ∧ AtMostOneMood (setMood mood s))
      ∧ (∀ (op : Op) (s s' : State), op.run s = some s' → (∀ mood : Nat, op ≠ Op.setMood mood) →
          s'.tired = s.tired ∧ s'.angry = s.angry ∧ s'.happy = s.happy)
      ∧ (∀ s : State, Reachable s → AtMostOneMood s) := by
  have hset : ∀ (mood : Nat) (s : State),
      ((setMood mood s).tired = true ↔ mood = 1)
        ∧ ((setMood mood s).angry = true ↔ mood = 2)
        ∧ ((setMood mood s).happy = true ↔ mood = 3)
        ∧ AtMostOneMood (setMood mood s) := by
    intro mood s
    obtain ⟨e1, e2, e3⟩ := setMood_flags mood s
    unfold AtMostOneMood
    rw [e1, e2, e3]
    refine ⟨by simp, by simp, by simp, ?_, ?_, ?_⟩ <;> simp only [decide_eq_true_eq] <;> omega
  refine ⟨hset, fun op s s' h hne => run_mood op s s' h hne, ?_⟩
  apply Reachable.induct
  · intro portrait
    cases portrait <;> exact ⟨by decide, by decide, by decide⟩
  · intro op s s' hI h
    by_cases hm : ∃ mood, op = Op.setMood mood
    · obtain ⟨mood, rfl⟩ := hm
      obtain rfl := Option.some.inj h
      exact (hset mood s).2.2.2
    · obtain ⟨e1, e2, e3⟩ := run_mood op s s' h (fun mood he => hm ⟨mood, he⟩)
      unfold AtMostOneMood at hI ⊢
      rw [e1, e2, e3]
      exact hI

/-! ## The halving step (C14) -/

/-- A non-negative gap that has shrunk by the factor `2 ^ n`, with
`n > log2` of its first value, is zero. -/
theorem gap_vanishes_log (G n : Nat) (d : Int) (hn : Nat.log 2 G + 1 ≤ n) (hd : 0 ≤ d)
    (hle : d * 2 ^ n ≤ (G : Int)) : d = 0 := by
  have h1 : G < 2 ^ (Nat.log 2 G + 1) := Nat.lt_pow_succ_log_self (by norm_num) G
  have h2 : 2 ^ (Nat.log 2 G + 1) ≤ 2 ^ n := Nat.pow_le_pow_right (by norm_num) hn
  have h3 : (G : Int) < (2 : Int) ^ n := by exact_mod_cast lt_of_lt_of_le h1 h2
  by_contra hne
  have h4 : 1 ≤ d := by omega
  have h5 : (2 : Int) ^ n ≤ d * 2 ^ n := by nlinarith [pow_pos (show (0 : Int) < 2 by norm_num) n]
  omega

/-- One step from below, for non-negative values: the result is still below
the target, and the distance to `target - 1` is halved, rounding down. -/
theorem halve_from_below (c t : Int) (h0 : 0 ≤ c) (h1 : c < t) :
    c ≤ halve t c ∧ halve t c < t ∧ t - halve t c = (t - c + 1) / 2
      ∧ (t - 1 - halve t c) * 2 ≤ t - 1 - c := by
  unfold halve
  have h := cdiv_two_cases (c + t)
  omega

/-- One step from above, for non-negative values: the result is not below the
target, and the distance to the target is halved, rounding down. -/
theorem halve_from_above (c t : Int) (h0 : 0 ≤ t) (h1 : t ≤ c) :
    t ≤ halve t c ∧ halve t c ≤ c ∧ halve t c - t = (c - t) / 2
      ∧ (halve t c - t) * 2 ≤ c - t := by
  unfold halve
  have h := cdiv_two_cases (c + t)
  omega

/-- Repeated steps from below. -/
theorem iterate_halve_below (t : Int) (n : Nat) :
    ∀ c : Int, 0 ≤ c → c < t →
      0 ≤ (halve t)^[n] c ∧ (halve t)^[n] c < t
        ∧ (t - 1 - (halve t)^[n] c) * 2 ^ n ≤ t - 1 - c := by
  induction n with
  | zero => intro c h0 h1; simp [h0, h1]
  | succ n ih =>
    intro c h0 h1
    obtain ⟨k1, k2, _, k4⟩ := halve_from_below c t h0 h1
    obtain ⟨i1, i2, i3⟩ := ih (halve t c) (by omega) k2
    rw [Function.iterate_succ_apply]
    refine ⟨i1, i2, ?_⟩
    rw [pow_succ, ← mul_assoc]
    omega

/-- Repeated steps from above. -/
theorem iterate_halve_above (t : Int) (n : Nat) :
    ∀ c : Int, 0 ≤ t → t ≤ c →
      t ≤ (halve t)^[n] c ∧ ((halve t)^[n] c - t) * 2 ^ n ≤ c - t := by
  induction n with
  | zero => intro c _ h1; simp [h1]
  | succ n ih =>
    intro c h0 h1
    obtain ⟨k1, _, _, k4⟩ := halve_from_above c t h0 h1
    obtain ⟨i1, i2⟩ := ih (halve t c) h0 k1
    rw [Function.iterate_succ_apply]
    refine ⟨i1, ?_⟩
    rw [pow_succ, ← mul_assoc]
    omega

/-- C14: for non-negative `c` and `t`, one smoothing step `c' = (c + t) / 2`
(truncating) lies between `c` and `t`; if `c < t` the remaining gap `t - c'`
is `ceil((t - c) / 2)`, repeated steps never reach `t`, and they are at
`t - 1` from step `floor(log2(t - c)) + 1` on; if `c > t` the remaining gap
`c' - t` is `floor((c - t) / 2)`, and repeated steps are at `t` from step
`floor(log2(c - t)) + 1` on.  This is the step that a pass of `drawEyes`
applies to the left eye's width. -/
theorem halve_step_characterisation (c t : Int) (hc : 0 ≤ c) (ht : 0 ≤ t) :
    (min c t ≤ halve t c ∧ halve t c ≤ max c t)
      ∧ (c < t →
          t - halve t c = (t - c + 1) / 2
            ∧ (∀ n : Nat, (halve t)^[n] c < t)
            ∧ (∀ n : Nat, Nat.log 2 (t - c).toNat + 1 ≤ n → (halve t)^[n] c = t - 1))
      ∧ (t < c →
          halve t c - t = (c - t) / 2
            ∧ (∀ n : Nat, Nat.log 2 (c - t).toNat + 1 ≤ n → (halve t)^[n] c = t))
      ∧ (∀ (p : Port) (s : State),
          (drawEyes p s).1.eyeLwidthCurrent = halve s.eyeLwidthNext s.eyeLwidthCurrent) := by
  refine ⟨?_, ?_, ?_, fun p s => (drawEyes_sizes p s).2.2.2.1⟩
  · rcases lt_or_le c t with h | h
    · obtain ⟨k1, k2, _, _⟩ := halve_from_below c t hc h
      rw [min_eq_left h.le, max_eq_right h.le]
      exact ⟨k1, k2.le⟩
    · obtain ⟨k1, k2, _, _⟩ := halve_from_above c t ht h
      rw [min_eq_right h, max_eq_left h]
      exact ⟨k1, k2⟩
  · intro h
    refine ⟨(halve_from_below c t hc h).2.2.1, fun n => (iterate_halve_below t n c hc h).2.1, ?_⟩
    intro n hn
    obtain ⟨_, i2, i3⟩ := iterate_halve_below t n c hc h
    have := gap_vanishes_log (t - c).toNat n (t - 1 - (halve t)^[n] c) hn (by omega) (by omega)
    omega
  · intro h
    refine ⟨(halve_from_above c t ht h.le).2.2.1, ?_⟩
    intro n hn
    obtain ⟨i1, i2⟩ := iterate_halve_above t n c ht h.le
    have := gap_vanishes_log (c - t).toNat n ((halve t)^[n] c - t) hn (by omega) (by omega)
    omega

/-- Witness for C14: from 30 toward 36 the steps stall at 35, from 40 toward
36 they arrive at 36, each from the third step on. -/
theorem halve_step_characterisation_witness :
    (∀ n : Nat, Nat.log 2 ((36 : Int) - 30).toNat + 1 ≤ n → (halve 36)^[n] 30 = 36 - 1)
      ∧ (∀ n : Nat, Nat.log 2 ((40 : Int) - 36).toNat + 1 ≤ n → (halve 36)^[n] 40 = 36) :=
  ⟨((halve_step_characterisation 30 36 (by decide) (by decide)).2.1 (by decide)).2.2,
    ((halve_step_characterisation 40 36 (by decide) (by decide)).2.2.1 (by decide)).2⟩

/-! ## The open-flag invariant (C15) -/

/-- The height block is the blend followed by the rule for open eyes. -/
theorem smoothHeights_split (s : State) : smoothHeights s = reopenRule (heightBlend s) := rfl

/-- Writing the default height into a target that already has it changes
nothing (left eye). -/
theorem retarget_left_noop (s : State) (h : s.eyeLheightNext = s.eyeLheightDefault) :
    ({ s with eyeLheightNext := s.eyeLheightDefault } : State) = s := by
  cases s
  dsimp only at h
  subst h
  rfl

/-- Writing the default height into a target that already has it changes
nothing (right eye). -/
theorem retarget_right_noop (s : State) (h : s.eyeRheightNext = s.eyeRheightDefault) :
    ({ s with eyeRheightNext := s.eyeRheightDefault } : State) = s := by
  cases s
  dsimp only at h
  subst h
  rfl

/-- On a state whose open eyes have their target at the default, the rule
for open eyes changes nothing. -/
theorem reopenRule_noop (s : State) (h : OpenAtDefault s) : reopenRule s = s := by
  obtain ⟨hl, hr⟩ := h
  have step1 : (if s.eyeL_open = true then
      if s.eyeLheightCurrent ≤ 1 + s.eyeLheightOffset then
        { s with eyeLheightNext := s.eyeLheightDefault }
      else s
    else s) = s := by
    by_cases h1 : s.eyeL_open = true
    · rw [if_pos h1, retarget_left_noop s (hl h1), ite_self]
    · rw [if_neg h1]
  have step2 : (if s.eyeR_open = true then
      if s.eyeRheightCurrent ≤ 1 + s.eyeRheightOffset then
        { s with eyeRheightNext := s.eyeRheightDefault }
      else s
    else s) = s := by
    by_cases h2 : s.eyeR_open = true
    · rw [if_pos h2, retarget_right_noop s (hr h2), ite_self]
    · rw [if_neg h2]
  unfold reopenRule
  dsimp only
  rw [step1, step2]

/-- The height block keeps the open-flag invariant. -/
theorem smoothHeights_openAtDefault (s : State) (h : OpenAtDefault s) :
    OpenAtDefault (smoothHeights s) := by
  obtain ⟨hl, hr⟩ := h
  rw [smoothHeights_eq]
  simp only [OpenAtDefault]
  constructor
  · intro k; split_ifs <;> first | rfl | exact hl k
  · intro k; split_ifs <;> first | rfl | exact hr k

/-- The autoblinker block keeps the open-flag invariant. -/
theorem autoblinkStep_openAtDefault (p : Port) (s : State) (h : OpenAtDefault s) :
    OpenAtDefault (autoblinkStep p s) := by
  obtain ⟨hl, hr⟩ := h
  rw [autoblinkStep_eq]
  simp only [OpenAtDefault]
  constructor
  · split_ifs
    · intro _; rfl
    · intro k; exact k.elim
    · exact hl
  · split_ifs
    · intro _; rfl
    · intro k; exact k.elim
    · exact hr

/-- A pass of `drawEyes` keeps the open-flag invariant: only the height block
and the autoblinker block write the open flags and the target heights. -/
theorem drawEyes_openAtDefault (p : Port) (s : State) (h : OpenAtDefault s) :
    OpenAtDefault (drawEyes p s).1 := by
  have h1 : OpenAtDefault (curiosityOffsets s) := by
    rw [curiosityOffsets_eq]; exact h
  have h2 := smoothHeights_openAtDefault _ h1
  have h3 : OpenAtDefault (smoothGeometry (smoothHeights (curiosityOffsets s))) := by
    rw [smoothGeometry_eq]; exact h2
  have h4 := autoblinkStep_openAtDefault p _ h3
  simp only [drawEyes, beforeIdle, moodTargets_eq, cyclopsStep_eq, vFlickerStep_eq,
    hFlickerStep_eq, idleStep_eq, confusedStep_eq, laughStep_eq]
  exact h4

/-- Every public operation keeps the open-flag invariant. -/
theorem run_openAtDefault (op : Op) (s s' : State) (hI : OpenAtDefault s)
    (h : op.run s = some s') : OpenAtDefault s' := by
  cases op
  case begin frameRate =>
    obtain ⟨q, rfl⟩ := begin_frame frameRate s s' h
    exact hI
  case setFramerate fps =>
    obtain ⟨q, rfl⟩ := setFramerate_frame fps s s' h
    exact hI
  case update now p after =>
    obtain rfl := Option.some.inj h
    rcases update_cases now p after s with e | e <;> rw [e]
    · exact hI
    · exact drawEyes_openAtDefault p s hI
  case drawEyes p =>
    obtain rfl := Option.some.inj h
    exact drawEyes_openAtDefault p s hI
  case setPosition position =>
    obtain rfl := Option.some.inj h
    obtain ⟨x, y, e⟩ := setPosition_frame position s
    rw [e]
    exact hI
  case setMood mood =>
    obtain rfl := Option.some.inj h
    unfold setMood
    split_ifs <;> exact hI
  case setHeight leftEye rightEye =>
    obtain rfl := Option.some.inj h
    exact ⟨fun _ => rfl, fun _ => rfl⟩
  case close =>
    obtain rfl := Option.some.inj h
    exact ⟨fun k => absurd k Bool.false_ne_true, fun k => absurd k Bool.false_ne_true⟩
  case openEyes =>
    obtain rfl := Option.some.inj h
    exact ⟨fun _ => rfl, fun _ => rfl⟩
  case blink left right =>
    obtain rfl := Option.some.inj h
    exact ⟨fun _ => rfl, fun _ => rfl⟩
  case closeLR left right =>
    obtain rfl := Option.some.inj h
    obtain ⟨hl, hr⟩ := hI
    cases left <;> cases right
    · exact ⟨hl, hr⟩
    · exact ⟨hl, fun k => absurd k Bool.false_ne_true⟩
    · exact ⟨fun k => absurd k Bool.false_ne_true, hr⟩
    · exact ⟨fun k => absurd k Bool.false_ne_true, fun k => absurd k Bool.false_ne_true⟩
  case openLR left right =>
    obtain rfl := Option.some.inj h
    obtain ⟨hl, hr⟩ := hI
    cases left <;> cases right
    · exact ⟨hl, hr⟩
    · exact ⟨hl, fun _ => rfl⟩
    · exact ⟨fun _ => rfl, hr⟩
    · exact ⟨fun _ => rfl, fun _ => rfl⟩
  all_goals
    obtain rfl := Option.some.inj h
    exact hI

/-- C15: in every state reachable from the constructor by public operations
and passes of `drawEyes`, `eyeL_open` implies `eyeLheightNext =
eyeLheightDefault` and `eyeR_open` implies `eyeRheightNext =
eyeRheightDefault`; consequently, in a pass from such a state, the rule that
sets an open eye's target height to the default once its current height is
at most `1 + offset` leaves the state as the blend before it produced it. -/
theorem open_flag_invariant :
    (∀ s : State, Reachable s → OpenAtDefault s)
      ∧ (∀ s : State, Reachable s →
          reopenRule (heightBlend (curiosityOffsets s)) = heightBlend (curiosityOffsets s)
            ∧ smoothHeights (curiosityOffsets s) = heightBlend (curiosityOffsets s)) := by
  have inv : ∀ s : State, Reachable s → OpenAtDefault s := by
    apply Reachable.induct
    · intro portrait
      exact ⟨fun k => absurd k Bool.false_ne_true, fun k => absurd k Bool.false_ne_true⟩
    · exact run_openAtDefault
  refine ⟨inv, fun s hs => ?_⟩
  have h1 : OpenAtDefault (heightBlend (curiosityOffsets s)) := by
    have := inv s hs
    simp only [OpenAtDefault, heightBlend, curiosityOffsets_eq] at this ⊢
    exact this
  have h2 := reopenRule_noop _ h1
  exact ⟨h2, by rw [smoothHeights_split, h2]⟩

/-! ## Flicker overlay (C16) -/

/-- The blocks before the overlays do not write the alternate bits; the
positions they leave are the smoothed ones. -/
theorem beforeFlicker_fields (p : Port) (s : State) :
    (beforeFlicker p s).hFlickerAlternate = s.hFlickerAlternate
      ∧ (beforeFlicker p s).vFlickerAlternate = s.vFlickerAlternate
      ∧ (beforeFlicker p s).eyeLx = cdiv (s.eyeLx + s.eyeLxNext) 2
      ∧ (beforeFlicker p s).eyeLy = (smoothGeometry (smoothHeights (curiosityOffsets s))).eyeLy
      ∧ (beforeFlicker p s).eyeRx = (smoothGeometry (smoothHeights (curiosityOffsets s))).eyeRx
      ∧ (beforeFlicker p s).eyeRy
          = (smoothGeometry (smoothHeights (curiosityOffsets s))).eyeRy := by
  simp only [beforeFlicker, beforeIdle, idleStep_eq, confusedStep_eq, laughStep_eq,
    autoblinkStep_eq, smoothGeometry_eq, smoothHeights_eq, curiosityOffsets_eq]
  exact ⟨trivial, trivial, trivial, trivial, trivial, trivial⟩

/-- C16: in every pass, with `m` the state after the smoothing and after the
burst generators have run: if `hFlicker` is enabled in `m`, `eyeLx` and
`eyeRx` both end displaced from their smoothed values by the same amount,
`+hFlickerAmplitude` if `hFlickerAlternate` was true and `-hFlickerAmplitude`
otherwise, and `hFlickerAlternate` is negated (so the next enabled pass
displaces with the opposite sign); if it is disabled, the positions and the
bit are as in `m`.  The same holds for `vFlicker` on `eyeLy`, `eyeRy` with
`vFlickerAmplitude` and `vFlickerAlternate`. -/
theorem flicker_overlay (p : Port) (s : State) :
    ((beforeFlicker p s).hFlicker = true →
        (drawEyes p s).1.eyeLx
            = (beforeFlicker p s).eyeLx
              + (if s.hFlickerAlternate then ((beforeFlicker p s).hFlickerAmplitude : Int)
                 else -((beforeFlicker p s).hFlickerAmplitude : Int))
          ∧ (drawEyes p s).1.eyeRx
            = (beforeFlicker p s).eyeRx
              + (if s.hFlickerAlternate then ((beforeFlicker p s).hFlickerAmplitude : Int)
                 else -((beforeFlicker p s).hFlickerAmplitude : Int))
          ∧ (drawEyes p s).1.hFlickerAlternate = !s.hFlickerAlternate
          ∧ ∀ q : Port,
              (beforeFlicker q (drawEyes p s).1).hFlickerAlternate = !s.hFlickerAlternate)
      ∧ ((beforeFlicker p s).hFlicker = false →
          (drawEyes p s).1.eyeLx = (beforeFlicker p s).eyeLx
            ∧ (drawEyes p s).1.eyeRx = (beforeFlicker p s).eyeRx
            ∧ (drawEyes p s).1.hFlickerAlternate = s.hFlickerAlternate)
      ∧ ((beforeFlicker p s).vFlicker = true →
          (drawEyes p s).1.eyeLy
              = (beforeFlicker p s).eyeLy
                + (if s.vFlickerAlternate then ((beforeFlicker p s).vFlickerAmplitude : Int)
                   else -((beforeFlicker p s).vFlickerAmplitude : Int))
            ∧ (drawEyes p s).1.eyeRy
              = (beforeFlicker p s).eyeRy
                + (if s.vFlickerAlternate then ((beforeFlicker p s).vFlickerAmplitude : Int)
                   else -((beforeFlicker p s).vFlickerAmplitude : Int))
            ∧ (drawEyes p s).1.vFlickerAlternate = !s.vFlickerAlternate
            ∧ ∀ q : Port,
                (beforeFlicker q (drawEyes p s).1).vFlickerAlternate = !s.vFlickerAlternate)
      ∧ ((beforeFlicker p s).vFlicker = false →
          (drawEyes p s).1.eyeLy = (beforeFlicker p s).eyeLy
            ∧ (drawEyes p s).1.eyeRy = (beforeFlicker p s).eyeRy
            ∧ (drawEyes p s).1.vFlickerAlternate = s.vFlickerAlternate)
      ∧ ((beforeFlicker p s).eyeLx = cdiv (s.eyeLx + s.eyeLxNext) 2
          ∧ (beforeFlicker p s).eyeLy
              = (smoothGeometry (smoothHeights (curiosityOffsets s))).eyeLy
          ∧ (beforeFlicker p s).eyeRx
              = (smoothGeometry (smoothHeights (curiosityOffsets s))).eyeRx
          ∧ (beforeFlicker p s).eyeRy
              = (smoothGeometry (smoothHeights (curiosityOffsets s))).eyeRy) := by
  obtain ⟨a1, a2, a3, a4, a5, a6⟩ := beforeFlicker_fields p s
  have e : (drawEyes p s).1.eyeLx = (hFlickerStep (beforeFlicker p s)).eyeLx
      ∧ (drawEyes p s).1.eyeRx = (hFlickerStep (beforeFlicker p s)).eyeRx
      ∧ (drawEyes p s).1.hFlickerAlternate = (hFlickerStep (beforeFlicker p s)).hFlickerAlternate
      ∧ (drawEyes p s).1.eyeLy = (vFlickerStep (beforeFlicker p s)).eyeLy
      ∧ (drawEyes p s).1.eyeRy = (vFlickerStep (beforeFlicker p s)).eyeRy
      ∧ (drawEyes p s).1.vFlickerAlternate
          = (vFlickerStep (beforeFlicker p s)).vFlickerAlternate := by
    simp only [drawEyes, beforeFlicker, moodTargets_eq, cyclopsStep_eq, vFlickerStep_eq,
      hFlickerStep_eq]
    exact ⟨trivial, trivial, trivial, trivial, trivial, trivial⟩
  obtain ⟨e1, e2, e3, e4, e5, e6⟩ := e
  rw [e1, e2, e3, e4, e5, e6, hFlickerStep_eq, vFlickerStep_eq]
  dsimp only
  rw [a1, a2]
  refine ⟨?_, ?_, ?_, ?_, ⟨a3, a4, a5, a6⟩⟩
  · intro h
    rw [if_pos h, if_pos h, if_pos h]
    refine ⟨?_, ?_, rfl, fun q => ?_⟩
    · split_ifs <;> omega
    · split_ifs <;> omega
    · rw [(beforeFlicker_fields q _).1, e3, hFlickerStep_eq]
      dsimp only
      rw [if_pos h, a1]
  · intro h
    have h' : ¬ (beforeFlicker p s).hFlicker = true := by rw [h]; exact Bool.false_ne_true
    rw [if_neg h', if_neg h', if_neg h']
    exact ⟨rfl, rfl, rfl⟩
  · intro h
    rw [if_pos h, if_pos h, if_pos h]
    refine ⟨?_, ?_, rfl, fun q => ?_⟩
    · split_ifs <;> omega
    · split_ifs <;> omega
    · rw [(beforeFlicker_fields q _).2.1, e6, vFlickerStep_eq]
      dsimp only
      rw [if_pos h, a2]
  · intro h
    have h' : ¬ (beforeFlicker p s).vFlicker = true := by rw [h]; exact Bool.false_ne_true
    rw [if_neg h', if_neg h', if_neg h']
    exact ⟨rfl, rfl, rfl⟩

/-! ## Bounded horizontal jitter (C17) -/

/-- A pass with horizontal flicker on, no confusion burst and idle not firing:
the target stays and the position is the halved one, displaced by the
amplitude. -/
theorem drawEyes_hflicker_x (p : Port) (s : State) (hf : s.hFlicker = true)
    (hc : s.confused = false) (hi : ¬ idleFires p s) :
    (drawEyes p s).1.hFlicker = true ∧ (drawEyes p s).1.confused = false
      ∧ (drawEyes p s).1.idle = s.idle
      ∧ (drawEyes p s).1.hFlickerAmplitude = s.hFlickerAmplitude
      ∧ (drawEyes p s).1.eyeLxNext = s.eyeLxNext
      ∧ ((drawEyes p s).1.eyeLx = cdiv (s.eyeLx + s.eyeLxNext) 2 + s.hFlickerAmplitude
          ∨ (drawEyes p s).1.eyeLx = cdiv (s.eyeLx + s.eyeLxNext) 2 - s.hFlickerAmplitude) := by
  have hi' : ¬ (s.idle = true ∧ s.idleAnimationTimer ≤ p.millis) := hi
  simp only [drawEyes, beforeIdle, moodTargets_eq, cyclopsStep_eq, vFlickerStep_eq,
    hFlickerStep_eq, idleStep_eq, confusedStep_eq, laughStep_eq, autoblinkStep_eq,
    smoothGeometry_eq, smoothHeights_eq, curiosityOffsets_eq, idleFires]
  simp only [hf, hc, Bool.false_eq_true, if_false, if_true, ge_iff_le, if_neg hi']
  refine ⟨trivial, trivial, trivial, trivial, trivial, ?_⟩
  by_cases ha : s.hFlickerAlternate = true
  · exact Or.inl (by rw [if_pos ha])
  · exact Or.inr (by rw [if_neg ha])

/-- The halving step followed by a displacement of `A` keeps a distance of at
most `2 * A` to the target. -/
theorem jitter_step (x t : Int) (A : Nat) (h : (x - t).natAbs ≤ 2 * A) :
    (cdiv (x + t) 2 + A - t).natAbs ≤ 2 * A ∧ (cdiv (x + t) 2 - A - t).natAbs ≤ 2 * A := by
  have k := halve_natAbs x t
  generalize cdiv (x + t) 2 = y at k ⊢
  omega

/-- The left eye's horizontal position and target at the end of a pass, read
off the state before the overlays. -/
theorem drawEyes_eyeLx_overlay (p : Port) (s : State) (hi : ¬ idleFires p s) :
    (drawEyes p s).1.eyeLx = (hFlickerStep (beforeFlicker p s)).eyeLx
      ∧ (drawEyes p s).1.eyeLxNext = s.eyeLxNext
      ∧ (beforeFlicker p s).eyeLx = cdiv (s.eyeLx + s.eyeLxNext) 2 := by
  have hi' : ¬ (s.idle = true ∧ s.idleAnimationTimer ≤ p.millis) := hi
  refine ⟨?_, ?_, (beforeFlicker_fields p s).2.2.1⟩
  · simp only [drawEyes, beforeFlicker, moodTargets_eq, cyclopsStep_eq, vFlickerStep_eq,
      hFlickerStep_eq]
  · simp only [drawEyes, beforeIdle, moodTargets_eq, cyclopsStep_eq, vFlickerStep_eq,
      hFlickerStep_eq, idleStep_eq, confusedStep_eq, laughStep_eq, autoblinkStep_eq,
      smoothGeometry_eq, smoothHeights_eq, curiosityOffsets_eq, idleFires]
    simp only [ge_iff_le, if_neg hi']

/-- C17: for every amplitude `A` and every state with
`|eyeLx - eyeLxNext| <= 2*A`, a pass in which horizontal flicker is on at
amplitude `A` when the overlay is applied (that is, after the burst
generators have run) and in which idle does not fire leaves `eyeLxNext`
unchanged and ends with `|eyeLx - eyeLxNext| <= 2*A` again; so under
continuous flicker at amplitude `A`, with idle off and no confusion burst,
the left eye's current x stays within `2*A` of its target over every run of
passes. -/
theorem bounded_horizontal_jitter (p : Port) (s : State) (A : Nat)
    (hf : (beforeFlicker p s).hFlicker = true)
    (ha : (beforeFlicker p s).hFlickerAmplitude = A) (hi : ¬ idleFires p s)
    (hb : |s.eyeLx - s.eyeLxNext| ≤ 2 * (A : Int)) :
    (drawEyes p s).1.eyeLxNext = s.eyeLxNext
      ∧ |(drawEyes p s).1.eyeLx - (drawEyes p s).1.eyeLxNext| ≤ 2 * (A : Int)
      ∧ (s.hFlicker = true → s.hFlickerAmplitude = A → s.confused = false → s.idle = false →
          ∀ ps : List Port,
            (frames ps s).eyeLxNext = s.eyeLxNext
              ∧ |(frames ps s).eyeLx - (frames ps s).eyeLxNext| ≤ 2 * (A : Int)) := by
  have hb' : (s.eyeLx - s.eyeLxNext).natAbs ≤ 2 * A := by
    rw [abs_le] at hb; omega
  obtain ⟨g1, g2, g3⟩ := drawEyes_eyeLx_overlay p s hi
  obtain ⟨j1, j2⟩ := jitter_step s.eyeLx s.eyeLxNext A hb'
  refine ⟨g2, ?_, ?_⟩
  · rw [g1, g2, hFlickerStep_eq]
    dsimp only
    rw [if_pos hf, g3, ha, abs_le]
    split_ifs <;> omega
  · intro hf0 ha0 hc hidle ps
    have := frames_induct
      (fun u => u.hFlicker = true ∧ u.hFlickerAmplitude = A ∧ u.confused = false
        ∧ u.idle = false ∧ u.eyeLxNext = s.eyeLxNext
        ∧ (u.eyeLx - u.eyeLxNext).natAbs ≤ 2 * A)
      (fun q u ⟨h1, h2, h3, h4, h5, h6⟩ => by
        have hq : ¬ idleFires q u := fun k => by
          have k1 := k.1
          rw [h4] at k1
          exact Bool.false_ne_true k1
        obtain ⟨e1, e2, e3, e4, e5, e6⟩ := drawEyes_hflicker_x q u h1 h3 hq
        obtain ⟨n1, n2⟩ := jitter_step u.eyeLx u.eyeLxNext A h6
        rw [h2] at e6
        refine ⟨e1, by rw [e4]; exact h2, e2, by rw [e3]; exact h4, by rw [e5]; exact h5, ?_⟩
        rw [e5]
        rcases e6 with e | e <;> rw [e]
        · exact n1
        · exact n2)
      ps s ⟨hf0, ha0, hc, hidle, rfl, hb'⟩
    obtain ⟨_, _, _, _, t5, t6⟩ := this
    exact ⟨t5, by rw [abs_le]; omega⟩

/-- Witness for C17: the constructor state with horizontal flicker on
(amplitude 2, the eye on its target), in a pass at clock time 0. -/
theorem bounded_horizontal_jitter_witness :
    |(drawEyes (portAt 0) flickerState).1.eyeLx
        - (drawEyes (portAt 0) flickerState).1.eyeLxNext| ≤ 2 * ((2 : Nat) : Int) :=
  (bounded_horizontal_jitter (portAt 0) flickerState 2 (by decide) (by decide)
    (fun k => Bool.false_ne_true k.1) (by decide)).2.1

/-! ## Eye coupling (C18) -/

/-- C18: after every pass in which cyclops mode is off and the idle generator
does not fire, `eyeRxNext = eyeLxNext + eyeLwidthCurrent +
spaceBetweenCurrent` and `eyeRyNext = eyeLyNext`, all values taken at the end
of the pass, whatever the right eye's target was before. -/
theorem eye_coupling (p : Port) (s : State) (hc : s.cyclops = false)
    (hi : ¬ idleFires p s) :
    (drawEyes p s).1.eyeRxNext
        = (drawEyes p s).1.eyeLxNext + (drawEyes p s).1.eyeLwidthCurrent
          + (drawEyes p s).1.spaceBetweenCurrent
      ∧ (drawEyes p s).1.eyeRyNext = (drawEyes p s).1.eyeLyNext := by
  have hi' : ¬ (s.idle = true ∧ s.idleAnimationTimer ≤ p.millis) := hi
  simp only [drawEyes, beforeIdle, moodTargets_eq, cyclopsStep_eq, vFlickerStep_eq,
    hFlickerStep_eq, idleStep_eq, confusedStep_eq, laughStep_eq, autoblinkStep_eq,
    smoothGeometry_eq, smoothHeights_eq, curiosityOffsets_eq, idleFires]
  simp only [hc, Bool.false_eq_true, if_false, ge_iff_le, if_neg hi']
  exact ⟨trivial, trivial⟩

/-- Witness for C18: the constructor state in a pass at clock time 0. -/
theorem eye_coupling_witness :
    (drawEyes (portAt 0) (init true)).1.eyeRxNext
        = (drawEyes (portAt 0) (init true)).1.eyeLxNext
          + (drawEyes (portAt 0) (init true)).1.eyeLwidthCurrent
          + (drawEyes (portAt 0) (init true)).1.spaceBetweenCurrent
      ∧ (drawEyes (portAt 0) (init true)).1.eyeRyNext
          = (drawEyes (portAt 0) (init true)).1.eyeLyNext :=
  eye_coupling (portAt 0) (init true) rfl (fun k => Bool.false_ne_true k.1)

/-! ## Curiosity offsets (C19) -/

/-- The offsets and heights at the end of a pass are those of the first two
blocks, but for the right eye's height in cyclops mode. -/
theorem drawEyes_offsets (p : Port) (s : State) :
    (drawEyes p s).1.eyeLheightOffset = (curiosityOffsets s).eyeLheightOffset
      ∧ (drawEyes p s).1.eyeRheightOffset = (curiosityOffsets s).eyeRheightOffset
      ∧ (drawEyes p s).1.eyeLheightCurrent
          = cdiv (s.eyeLheightCurrent + s.eyeLheightNext
              + (curiosityOffsets s).eyeLheightOffset) 2
      ∧ (smoothHeights (curiosityOffsets s)).eyeRheightCurrent
          = cdiv (s.eyeRheightCurrent + s.eyeRheightNext
              + (curiosityOffsets s).eyeRheightOffset) 2
      ∧ (s.cyclops = false →
          (drawEyes p s).1.eyeRheightCurrent
            = (smoothHeights (curiosityOffsets s)).eyeRheightCurrent) := by
  simp only [drawEyes, beforeIdle, moodTargets_eq, cyclopsStep_eq, vFlickerStep_eq,
    hFlickerStep_eq, idleStep_eq, confusedStep_eq, laughStep_eq, autoblinkStep_eq,
    smoothGeometry_eq, smoothHeights_eq, curiosityOffsets_eq]
  refine ⟨trivial, trivial, trivial, trivial, fun h => ?_⟩
  simp only [h, Bool.false_eq_true, if_false]

/-- C19: after every pass both height offsets are 0 or 8; with curiosity
disabled both are 0; with curiosity enabled the left offset is 8 exactly
when, at the start of the pass, `eyeLxNext <= 10` or (cyclops and
`eyeLxNext >= getScreenConstraint_X() - 10`), and the right offset is 8
exactly when `eyeRxNext >= screenWidth - eyeRwidthCurrent - 10`; the offsets
do not depend on their values before the pass; and each is added to the sum
that the height smoothing of the pass halves (for the right eye the result
is the current height at the end of the pass when cyclops mode is off). -/
theorem curiosity_offsets (p : Port) (s : State) :
    ((drawEyes p s).1.eyeLheightOffset = 0 ∨ (drawEyes p s).1.eyeLheightOffset = 8)
      ∧ ((drawEyes p s).1.eyeRheightOffset = 0 ∨ (drawEyes p s).1.eyeRheightOffset = 8)
      ∧ (s.curious = false →
          (drawEyes p s).1.eyeLheightOffset = 0 ∧ (drawEyes p s).1.eyeRheightOffset = 0)
      ∧ (s.curious = true →
          ((drawEyes p s).1.eyeLheightOffset = 8 ↔
              (s.eyeLxNext ≤ 10
                ∨ (s.cyclops = true ∧ s.eyeLxNext ≥ getScreenConstraint_X s - 10)))
            ∧ ((drawEyes p s).1.eyeRheightOffset = 8 ↔
              s.eyeRxNext ≥ s.screenWidth - s.eyeRwidthCurrent - 10))
      ∧ (∀ a b : Int,
          (drawEyes p { s with eyeLheightOffset := a, eyeRheightOffset := b }).1.eyeLheightOffset
              = (drawEyes p s).1.eyeLheightOffset
            ∧ (drawEyes p { s with eyeLheightOffset := a, eyeRheightOffset := b }).1.eyeRheightOffset
              = (drawEyes p s).1.eyeRheightOffset)
      ∧ (drawEyes p s).1.eyeLheightCurrent
          = cdiv (s.eyeLheightCurrent + s.eyeLheightNext + (drawEyes p s).1.eyeLheightOffset) 2
      ∧ (smoothHeights (curiosityOffsets s)).eyeRheightCurrent
          = cdiv (s.eyeRheightCurrent + s.eyeRheightNext + (drawEyes p s).1.eyeRheightOffset) 2
      ∧ (s.cyclops = false →
          (drawEyes p s).1.eyeRheightCurrent
            = cdiv (s.eyeRheightCurrent + s.eyeRheightNext
                + (drawEyes p s).1.eyeRheightOffset) 2) := by
  obtain ⟨e1, e2, e3, e4, e5⟩ := drawEyes_offsets p s
  have eL : (curiosityOffsets s).eyeLheightOffset
      = (if s.curious then
          if s.eyeLxNext ≤ 10 then 8
          else if s.eyeLxNext ≥ getScreenConstraint_X s - 10 ∧ s.cyclops then 8 else 0
        else 0) := by rw [curiosityOffsets_eq]
  have eR : (curiosityOffsets s).eyeRheightOffset
      = (if s.curious then
          if s.eyeRxNext ≥ s.screenWidth - s.eyeRwidthCurrent - 10 then 8 else 0
        else 0) := by rw [curiosityOffsets_eq]
  refine ⟨?_, ?_, ?_, ?_, ?_, ?_, ?_, ?_⟩
  · rw [e1, eL]; split_ifs <;> simp
  · rw [e2, eR]; split_ifs <;> simp
  · intro h
    rw [e1, e2, eL, eR]
    simp [h]
  · intro h
    rw [e1, e2, eL, eR]
    simp only [h, if_true]
    constructor
    · constructor
      · intro k
        by_cases h1 : s.eyeLxNext ≤ 10
        · exact Or.inl h1
        · rw [if_neg h1] at k
          by_cases h2 : s.eyeLxNext ≥ getScreenConstraint_X s - 10 ∧ s.cyclops = true
          · exact Or.inr ⟨h2.2, h2.1⟩
          · rw [if_neg h2] at k
            exact absurd k (by decide)
      · intro k
        by_cases h1 : s.eyeLxNext ≤ 10
        · rw [if_pos h1]
        · rw [if_neg h1]
          rcases k with k | k
          · exact absurd k h1
          · rw [if_pos ⟨k.2, k.1⟩]
    · constructor
      · intro k
        by_contra h1
        rw [if_neg h1] at k
        exact absurd k (by decide)
      · intro k
        rw [if_pos k]
  · intro a b
    obtain ⟨f1, f2, _, _, _⟩ :=
      drawEyes_offsets p { s with eyeLheightOffset := a, eyeRheightOffset := b }
    rw [f1, f2, e1, e2, curiosityOffsets_eq, curiosityOffsets_eq]
    exact ⟨rfl, rfl⟩
  · rw [e3, e1]
  · rw [e4, e2]
  · intro h
    rw [e5 h, e4, e2]

/-! ## Disabling autoblink during a hold (C20) -/

/-- A pass with the autoblinker off and no hold in progress leaves closed
targets closed. -/
theorem drawEyes_stays_closed (p : Port) (s : State) (ha : s.autoblinker = false)
    (hb : s.blinkingActive = false) (hl : s.eyeL_open = false) (hr : s.eyeR_open = false) :
    (drawEyes p s).1.autoblinker = false ∧ (drawEyes p s).1.blinkingActive = false
      ∧ (drawEyes p s).1.eyeL_open = false ∧ (drawEyes p s).1.eyeR_open = false
      ∧ (drawEyes p s).1.eyeLheightNext = s.eyeLheightNext
      ∧ (drawEyes p s).1.eyeRheightNext = s.eyeRheightNext
      ∧ (drawEyes p s).1.eyeLborderRadiusNext = s.eyeLborderRadiusNext
      ∧ (drawEyes p s).1.eyeRborderRadiusNext = s.eyeRborderRadiusNext := by
  simp only [drawEyes, beforeIdle, moodTargets_eq, cyclopsStep_eq, vFlickerStep_eq,
    hFlickerStep_eq, idleStep_eq, confusedStep_eq, laughStep_eq, autoblinkStep_eq,
    smoothGeometry_eq, smoothHeights_eq, curiosityOffsets_eq, blinkStarts, holdEnds]
  simp [ha, hb, hl, hr]

/-- C20: if `setAutoblinker(false, i, v)` is called while a blink hold is in
progress (`blinkingActive` true, target heights 1, target radii 0, open flags
false), the call clears `blinkingActive` and leaves target heights at 1,
target radii at 0 and the open flags false; and after any run of passes of
`drawEyes`, with no other call, both target heights are still 1, the target
radii 0 and the open flags false: the eyes are not reopened. -/
theorem autoblink_off_during_hold (s : State) (now : Nat) (random : Int → Int) (i v : Int)
    (h : BlinkHold s) :
    ((setAutoblinker now random false i v s).blinkingActive = false
        ∧ (setAutoblinker now random false i v s).autoblinker = false
        ∧ (setAutoblinker now random false i v s).eyeLheightNext = 1
        ∧ (setAutoblinker now random false i v s).eyeRheightNext = 1
        ∧ (setAutoblinker now random false i v s).eyeLborderRadiusNext = 0
        ∧ (setAutoblinker now random false i v s).eyeRborderRadiusNext = 0
        ∧ (setAutoblinker now random false i v s).eyeL_open = false
        ∧ (setAutoblinker now random false i v s).eyeR_open = false)
      ∧ (∀ ps : List Port,
          (frames ps (setAutoblinker now random false i v s)).eyeLheightNext = 1
            ∧ (frames ps (setAutoblinker now random false i v s)).eyeRheightNext = 1
            ∧ (frames ps (setAutoblinker now random false i v s)).eyeLborderRadiusNext = 0
            ∧ (frames ps (setAutoblinker now random false i v s)).eyeRborderRadiusNext = 0
            ∧ (frames ps (setAutoblinker now random false i v s)).eyeL_open = false
            ∧ (frames ps (setAutoblinker now random false i v s)).eyeR_open = false) := by
  obtain ⟨h1, h2, h3, h4, h5, h6, _⟩ := h
  refine ⟨⟨rfl, rfl, h1, h2, h3, h4, h5, h6⟩, fun ps => ?_⟩
  have := frames_induct
    (fun u => u.autoblinker = false ∧ u.blinkingActive = false ∧ u.eyeL_open = false
      ∧ u.eyeR_open = false ∧ u.eyeLheightNext = 1 ∧ u.eyeRheightNext = 1
      ∧ u.eyeLborderRadiusNext = 0 ∧ u.eyeRborderRadiusNext = 0)
    (fun q u ⟨a1, a2, a3, a4, a5, a6, a7, a8⟩ => by
      obtain ⟨e1, e2, e3, e4, e5, e6, e7, e8⟩ := drawEyes_stays_closed q u a1 a2 a3 a4
      exact ⟨e1, e2, e3, e4, e5.trans a5, e6.trans a6, e7.trans a7, e8.trans a8⟩)
    ps (setAutoblinker now random false i v s) ⟨rfl, rfl, h5, h6, h1, h2, h3, h4⟩
  obtain ⟨_, _, t3, t4, t5, t6, t7, t8⟩ := this
  exact ⟨t5, t6, t7, t8, t3, t4⟩

/-- Witness for C20: the held state, with the autoblinker disabled at clock
time 1100, 50 ms before the hold would have ended. -/
theorem autoblink_off_during_hold_witness :
    (setAutoblinker 1100 (fun _ => 0) false 1 4 heldState).blinkingActive = false
      ∧ (∀ ps : List Port,
          (frames ps (setAutoblinker 1100 (fun _ => 0) false 1 4 heldState)).eyeLheightNext = 1
            ∧ (frames ps (setAutoblinker 1100 (fun _ => 0) false 1 4 heldState)).eyeRheightNext
                = 1) :=
  ⟨(autoblink_off_during_hold heldState 1100 (fun _ => 0) 1 4
      ⟨rfl, rfl, rfl, rfl, rfl, rfl, rfl⟩).1.1,
    fun ps =>
      ⟨((autoblink_off_during_hold heldState 1100 (fun _ => 0) 1 4
          ⟨rfl, rfl, rfl, rfl, rfl, rfl, rfl⟩).2 ps).1,
        ((autoblink_off_during_hold heldState 1100 (fun _ => 0) 1 4
          ⟨rfl, rfl, rfl, rfl, rfl, rfl, rfl⟩).2 ps).2.1⟩⟩

/-! ## `blink` (C21) -/

/-- C21: for every state and all flags, `blink(left, right)` yields exactly
the state that `open()` yields: both target heights and radii at their default
values, both open flags true, every other field (all current values included)
unchanged.  In particular `blink(false, false)` is not the
identity (on the constructor state it sets the open flags), and the 1 that
`close()` writes into the target heights is not left there: each target
height is the eye's default, so it is 1 only when that default is 1. -/
theorem blink_is_open (left right : Bool) (s : State) :
    blink left right s = openEyes s
      ∧ blink left right s = openLR true true s
      ∧ blink left right s
          = { s with
              eyeL_open := true
              eyeR_open := true
              eyeLheightNext := s.eyeLheightDefault
              eyeRheightNext := s.eyeRheightDefault
              eyeLborderRadiusNext := s.eyeLborderRadiusDefault
              eyeRborderRadiusNext := s.eyeRborderRadiusDefault }
      ∧ blink false false (init true) ≠ init true
      ∧ ((blink left right s).eyeLheightNext = 1 ↔ s.eyeLheightDefault = 1)
      ∧ ((blink left right s).eyeRheightNext = 1 ↔ s.eyeRheightDefault = 1) := by
  refine ⟨rfl, rfl, rfl, ?_, Iff.rfl, Iff.rfl⟩
  intro h
  have k := congrArg State.eyeL_open h
  exact absurd k (by decide)

/-! ## Size setters (C22) -/

/-- C22: `setWidth`, `setHeight`, `setBorderradius` and `setSpacebetween`
change only the corresponding default and target fields; the four position defaults,
every current value and every position target are unchanged, so the
DEFAULT anchor of `setPosition` after any of them is still the old
`(eyeLxDefault, eyeLyDefault)`.  The constructor and `setScreenSize` set
these defaults to the centre for the sizes of that moment; the size setters
do not recompute it: after `setWidth(20, 20)` on the constructor state the
DEFAULT anchor is still x = 26, while the centre for the new sizes is 42. -/
theorem size_setters_do_not_recentre (s : State) (leftEye rightEye : Nat) (space : Int) :
    (setWidth leftEye rightEye s
        = { s with eyeLwidthNext := leftEye, eyeRwidthNext := rightEye,
                   eyeLwidthDefault := leftEye, eyeRwidthDefault := rightEye }
      ∧ setHeight leftEye rightEye s
        = { s with eyeLheightNext := leftEye, eyeRheightNext := rightEye,
                   eyeLheightDefault := leftEye, eyeRheightDefault := rightEye }
      ∧ setBorderradius leftEye rightEye s
        = { s with eyeLborderRadiusNext := leftEye, eyeRborderRadiusNext := rightEye,
                   eyeLborderRadiusDefault := leftEye, eyeRborderRadiusDefault := rightEye }
      ∧ setSpacebetween space s
        = { s with spaceBetweenNext := space, spaceBetweenDefault := space })
      ∧ (∀ t : State,
          t ∈ [setWidth leftEye rightEye s, setHeight leftEye rightEye s,
               setBorderradius leftEye rightEye s, setSpacebetween space s] →
          (t.eyeLxDefault = s.eyeLxDefault ∧ t.eyeLyDefault = s.eyeLyDefault
              ∧ t.eyeRxDefault = s.eyeRxDefault ∧ t.eyeRyDefault = s.eyeRyDefault)
            ∧ (t.eyeLxNext = s.eyeLxNext ∧ t.eyeLyNext = s.eyeLyNext
              ∧ t.eyeRxNext = s.eyeRxNext ∧ t.eyeRyNext = s.eyeRyNext)
            ∧ (t.eyeLx = s.eyeLx ∧ t.eyeLy = s.eyeLy ∧ t.eyeRx = s.eyeRx ∧ t.eyeRy = s.eyeRy
              ∧ t.eyeLwidthCurrent = s.eyeLwidthCurrent
              ∧ t.eyeRwidthCurrent = s.eyeRwidthCurrent
              ∧ t.eyeLheightCurrent = s.eyeLheightCurrent
              ∧ t.eyeRheightCurrent = s.eyeRheightCurrent
              ∧ t.eyeLborderRadiusCurrent = s.eyeLborderRadiusCurrent
              ∧ t.eyeRborderRadiusCurrent = s.eyeRborderRadiusCurrent
              ∧ t.spaceBetweenCurrent = s.spaceBetweenCurrent)
            ∧ (setPosition DEFAULT t).eyeLxNext = s.eyeLxDefault
            ∧ (setPosition DEFAULT t).eyeLyNext = s.eyeLyDefault)
      ∧ (∀ portrait : Bool,
          (init portrait).eyeLxDefault = centreX (init portrait)
            ∧ (init portrait).eyeLyDefault = centreY (init portrait))
      ∧ (∀ (hasSprite : Bool) (w h : Int),
          (setScreenSize hasSprite w h s).1.eyeLxDefault
              = centreX (setScreenSize hasSprite w h s).1
            ∧ (setScreenSize hasSprite w h s).1.eyeLyDefault
              = centreY (setScreenSize hasSprite w h s).1)
      ∧ ((setPosition DEFAULT (setWidth 20 20 (init true))).eyeLxNext = 26
          ∧ centreX (setWidth 20 20 (init true)) = 42) := by
  refine ⟨⟨rfl, rfl, rfl, rfl⟩, ?_, ?_, ?_, ?_⟩
  · intro t ht
    simp only [List.mem_cons, List.mem_singleton, List.not_mem_nil, or_false] at ht
    rcases ht with rfl | rfl | rfl | rfl <;>
      exact ⟨⟨rfl, rfl, rfl, rfl⟩, ⟨rfl, rfl, rfl, rfl⟩,
        ⟨rfl, rfl, rfl, rfl, rfl, rfl, rfl, rfl, rfl, rfl, rfl⟩, rfl, rfl⟩
  · intro portrait
    cases portrait <;> exact ⟨rfl, rfl⟩
  · intro hasSprite w h
    exact ⟨rfl, rfl⟩
  · exact ⟨by decide, by decide⟩

/-! ## The scheduler gate on reachable states (C8) -/

/-- The interval that `setFramerate` stores is a quotient of 1000 by a positive
frame rate, hence between 0 and 1000. -/
theorem setFramerate_interval_range (fps : Nat) (s s' : State)
    (h : setFramerate fps s = some s') :
    0 ≤ s'.frameInterval ∧ s'.frameInterval ≤ 1000 := by
  unfold setFramerate cdivChecked at h
  by_cases hz : (fps : Int) = 0
  · rw [if_pos hz] at h
    exact absurd h (by simp)
  · rw [if_neg hz] at h
    obtain rfl := Option.some.inj h
    have hpos : (0 : Int) < fps := by omega
    have e : cdiv 1000 fps = 1000 / (fps : Int) := by
      unfold cdiv
      exact Int.tdiv_eq_ediv (by decide) (by omega)
    show 0 ≤ cdiv 1000 fps ∧ cdiv 1000 fps ≤ 1000
    rw [e]
    constructor
    · exact Int.ediv_nonneg (by decide) (by omega)
    · exact Int.ediv_le_self _ (by decide)

/-- A pass of `drawEyes` does not write `frameInterval`. -/
theorem drawEyes_frameInterval (p : Port) (s : State) :
    (drawEyes p s).1.frameInterval = s.frameInterval := by
  simp only [drawEyes, beforeIdle, moodTargets_eq, cyclopsStep_eq, vFlickerStep_eq,
    hFlickerStep_eq, idleStep_eq, confusedStep_eq, laughStep_eq, autoblinkStep_eq,
    smoothGeometry_eq, smoothHeights_eq, curiosityOffsets_eq]

/-- Every public operation keeps `frameInterval` between 0 and 1000: only
`begin` and `setFramerate` write it. -/
theorem run_frameInterval (op : Op) (s s' : State) (h : op.run s = some s')
    (hI : 0 ≤ s.frameInterval ∧ s.frameInterval ≤ 1000) :
    0 ≤ s'.frameInterval ∧ s'.frameInterval ≤ 1000 := by
  cases op
  case begin frameRate =>
    have h' : (begin frameRate s).map Prod.fst = some s' := h
    unfold begin at h'
    dsimp only at h'
    split at h'
    · exact absurd h' (by simp)
    · rename_i s2 h2
      simp only [Option.map_some', Option.some.injEq] at h'
      rw [← h']
      exact setFramerate_interval_range _ _ _ h2
  case setFramerate fps =>
    exact setFramerate_interval_range fps s s' h
  case update now p after =>
    obtain rfl := Option.some.inj h
    rcases update_cases now p after s with e | e <;> rw [e]
    · exact hI
    · show 0 ≤ (drawEyes p s).1.frameInterval ∧ (drawEyes p s).1.frameInterval ≤ 1000
      rw [drawEyes_frameInterval]
      exact hI
  case drawEyes p =>
    obtain rfl := Option.some.inj h
    show 0 ≤ (drawEyes p s).1.frameInterval ∧ (drawEyes p s).1.frameInterval ≤ 1000
    rw [drawEyes_frameInterval]
    exact hI
  case setPosition position =>
    obtain rfl := Option.some.inj h
    obtain ⟨x, y, e⟩ := setPosition_frame position s
    rw [e]
    exact hI
  case setMood mood =>
    obtain rfl := Option.some.inj h
    show 0 ≤ (setMood mood s).frameInterval ∧ (setMood mood s).frameInterval ≤ 1000
    unfold setMood
    split_ifs <;> exact hI
  case setScreenSize hasSprite w h0 =>
    obtain rfl := Option.some.inj h
    show 0 ≤ (setScreenSize hasSprite w h0 s).1.frameInterval
      ∧ (setScreenSize hasSprite w h0 s).1.frameInterval ≤ 1000
    unfold setScreenSize
    dsimp only
    exact hI
  case closeLR left right =>
    obtain rfl := Option.some.inj h
    cases left <;> cases right <;> exact hI
  case openLR left right =>
    obtain rfl := Option.some.inj h
    cases left <;> cases right <;> exact hI
  all_goals
    obtain rfl := Option.some.inj h
    exact hI

/-- In every state reachable from the constructor by public operations,
`frameInterval` lies between 0 and 1000. -/
theorem reachable_frameInterval (s : State) (hs : Reachable s) :
    0 ≤ s.frameInterval ∧ s.frameInterval ≤ 1000 :=
  Reachable.induct (fun s => 0 ≤ s.frameInterval ∧ s.frameInterval ≤ 1000)
    (fun portrait => by cases portrait <;> decide)
    (fun op s s' hI h => run_frameInterval op s s' h hI) s hs

/-- C8: for every state reachable from the constructor by public operations and
every clock value `now`, if `(now - fpsTimer) mod 2^32 < frameInterval` then
`update()` leaves every field of the state unchanged and makes no call on the
sprite; otherwise it performs exactly one pass of `drawEyes` followed by one
push of the sprite, and sets `fpsTimer` to the clock value `after` that
`millis()` returns at that moment. -/
theorem scheduler_gate (s : State) (hs : Reachable s) (now : Nat) (p : Port) (after : Nat) :
    (((now : Int) - s.fpsTimer) % 4294967296 < s.frameInterval →
        update now p after s = (s, []))
      ∧ (¬ (((now : Int) - s.fpsTimer) % 4294967296 < s.frameInterval) →
        update now p after s
          = ({ (drawEyes p s).1 with fpsTimer := after },
             (drawEyes p s).2 ++ [DrawOp.pushSprite 0 0])) := by
  have hI := reachable_frameInterval s hs
  exact update_gate now p after s hI.1 (by omega)

/-- Witness for C8: the constructor state (interval 20 ms, timer 0) is
reachable; at clock value 5 the gate is closed and `update()` does nothing,
at clock value 20 it is open and `update()` runs one pass and one push. -/
theorem scheduler_gate_witness :
    Reachable (init true)
      ∧ update 5 (portAt 5) 5 (init true) = (init true, [])
      ∧ update 20 (portAt 20) 20 (init true)
          = ({ (drawEyes (portAt 20) (init true)).1 with fpsTimer := 20 },
             (drawEyes (portAt 20) (init true)).2 ++ [DrawOp.pushSprite 0 0]) :=
  ⟨Reachable.start true,
   (scheduler_gate (init true) (Reachable.start true) 5 (portAt 5) 5).1 (by decide),
   (scheduler_gate (init true) (Reachable.start true) 20 (portAt 20) 20).2 (by decide)⟩

end RoboEyes
